import Mathlib

/-!
# FramelessHelper: hit testing, region configuration and event dispatch

A shallow embedding of `framelesshelper.cpp`.

* C++ `int` values are `Int` (signed overflow is undefined in C++, so only
  the overflow-free executions are described).
* `qreal` coordinates of `QPointF` are rationals: every finite `double` is a
  rational and the comparisons the code performs on them are exact.
* `QObject *` is `Option Nat`: `none` is `nullptr`, `some id` an object
  identity.  Identities are never reused, which is what `QPointer` observes.
* `QFlags` values (`Qt::Edges`, `Qt::WindowStates`) are bit masks in `Nat`
  with the enumerator values of the toolkit.
* The toolkit calls made by the code (`startSystemMove`, `setCursor`, ...)
  are recorded as a list of `Effect`s in program order.
* The two preprocessor switches `QT_WIDGETS_LIB` and `QT_QUICK_LIB` are the
  fields of `BuildConfig`.
* Positions of top-level windows and widgets are in the coordinates of the
  virtual desktop, as `setX`, `setY` and `move` take them; a screen has a size
  and a top-left corner in those coordinates.
-/

/-! ## Toolkit value types -/

/-- Conversion of a `qreal` to `int` as C++ performs it when a `double`
argument is passed for an `int` parameter: truncation toward zero. -/
def toInt (q : ℚ) : Int := Int.tdiv q.num q.den

/-- The test `QFlags::testFlag`: all bits of `flag` are set in `i`, and a zero
`flag` is only matched by a zero `i`. -/
def testFlag (i flag : Nat) : Bool :=
  (i &&& flag == flag) && (flag != 0 || i == flag)

namespace Qt

/-- Enumerator `Qt::TopEdge`. -/
abbrev TopEdge : Nat := 1
/-- Enumerator `Qt::LeftEdge`. -/
abbrev LeftEdge : Nat := 2
/-- Enumerator `Qt::RightEdge`. -/
abbrev RightEdge : Nat := 4
/-- Enumerator `Qt::BottomEdge`. -/
abbrev BottomEdge : Nat := 8

/-- Enumerator `Qt::WindowNoState`. -/
abbrev WindowNoState : Nat := 0
/-- Enumerator `Qt::WindowMinimized`. -/
abbrev WindowMinimized : Nat := 1
/-- Enumerator `Qt::WindowMaximized`. -/
abbrev WindowMaximized : Nat := 2
/-- Enumerator `Qt::WindowFullScreen`. -/
abbrev WindowFullScreen : Nat := 4
/-- Enumerator `Qt::WindowActive`. -/
abbrev WindowActive : Nat := 8

end Qt

/-- The cursor shapes of `Qt::CursorShape` the code sets, and a constructor
for all the others. -/
inductive CursorShape
  | ArrowCursor
  | SizeVerCursor
  | SizeHorCursor
  | SizeBDiagCursor
  | SizeFDiagCursor
  | OtherCursor (code : Nat)
  deriving DecidableEq, Repr

/-- The buttons of `Qt::MouseButton` as reported by `QMouseEvent::button()`. -/
inductive MouseButton
  | NoButton
  | LeftButton
  | RightButton
  | MiddleButton
  | OtherButton (code : Nat)
  deriving DecidableEq, Repr

/-- A `QPointF`: a point with `qreal` coordinates. -/
structure QPointF where
  x : ℚ
  y : ℚ
  deriving DecidableEq

/-- A `QRect`, stored as the toolkit stores it: the corners `(x1, y1)` and
`(x2, y2)`, both inclusive. -/
structure QRect where
  x1 : Int
  y1 : Int
  x2 : Int
  y2 : Int
  deriving DecidableEq, Repr

/-- The constructor `QRect(x, y, width, height)`. -/
def QRect.ofXYWH (x y w h : Int) : QRect :=
  { x1 := x, y1 := y, x2 := x + w - 1, y2 := y + h - 1 }

/-- The toolkit test `QRect::contains(int x, int y)`, edges included. -/
def QRect.contains (r : QRect) (px py : Int) : Bool :=
  let l := if r.x2 < r.x1 - 1 then r.x2 else r.x1
  let rr := if r.x2 < r.x1 - 1 then r.x1 else r.x2
  let t := if r.y2 < r.y1 - 1 then r.y2 else r.y1
  let b := if r.y2 < r.y1 - 1 then r.y1 else r.y2
  !(decide (px < l) || decide (px > rr)) && !(decide (py < t) || decide (py > b))

/-- A `QRectF`: top-left corner and `qreal` extent. -/
structure QRectF where
  xp : ℚ
  yp : ℚ
  w : ℚ
  h : ℚ
  deriving DecidableEq

/-- The left edge `QRectF::contains` compares against. -/
def QRectF.lo (p ext : ℚ) : ℚ := if ext < 0 then p + ext else p

/-- The right edge `QRectF::contains` compares against. -/
def QRectF.hi (p ext : ℚ) : ℚ := if ext < 0 then p else p + ext

/-- The toolkit test `QRectF::contains(x, y)`: a rectangle of zero width or
height contains nothing, otherwise the edges are included. -/
def QRectF.contains (r : QRectF) (px py : ℚ) : Bool :=
  if QRectF.lo r.xp r.w = QRectF.hi r.xp r.w then false
  else if px < QRectF.lo r.xp r.w ∨ px > QRectF.hi r.xp r.w then false
  else if QRectF.lo r.yp r.h = QRectF.hi r.yp r.h then false
  else if py < QRectF.lo r.yp r.h ∨ py > QRectF.hi r.yp r.h then false
  else true

/-! ## The objects the helper observes -/

/-- What the code reads from, and writes to, a `QWindow`. -/
structure QWindowData where
  /-- Whether `handle()` is non-null, i.e. a platform window exists. -/
  hasPlatformWindow : Bool
  isTopLevel : Bool
  width : Int
  height : Int
  /-- The result of `windowStates()`, a `Qt::WindowStates` mask. -/
  windowStates : Nat
  cursor : CursorShape
  /-- The position of the window, in the coordinates of the virtual desktop
  (the coordinates `setX` and `setY` take for a top-level window). -/
  x : Int
  y : Int
  /-- The result of `screen()->size()`. -/
  screenWidth : Int
  screenHeight : Int
  /-- The top-left corner of `screen()->geometry()`, in the coordinates of the
  virtual desktop.  The code never reads it. -/
  screenX : Int
  screenY : Int
  deriving DecidableEq, Repr

/-- What the code reads from, and writes to, a `QWidget`. -/
structure QWidgetData where
  isTopLevel : Bool
  /-- The result of `windowHandle()`; `none` is `nullptr`. -/
  windowHandle : Option QWindowData
  width : Int
  height : Int
  /-- The result of `mapToGlobal({0, 0})`. -/
  globalX : Int
  globalY : Int
  /-- The widget's own `Qt::WindowStates` mask, read through `isMinimized()`,
  `isMaximized()` and `isFullScreen()`. -/
  windowState : Nat
  cursor : CursorShape
  /-- The position of the widget, in the coordinates of the virtual desktop
  for a top-level widget (the coordinates `move` takes). -/
  x : Int
  y : Int
  /-- The result of `screen()->size()`. -/
  screenWidth : Int
  screenHeight : Int
  /-- The top-left corner of `screen()->geometry()`, in the coordinates of the
  virtual desktop.  The code never reads it. -/
  screenX : Int
  screenY : Int
  deriving DecidableEq, Repr

/-- What the code reads from a `QQuickItem`. -/
structure QQuickItemData where
  /-- The result of `mapToGlobal({0, 0})`. -/
  globalX : ℚ
  globalY : ℚ
  width : ℚ
  height : ℚ
  deriving DecidableEq

/-- A live `QObject`, by the dynamic type `qobject_cast` distinguishes. -/
inductive QObject
  | Window (d : QWindowData)
  | Widget (d : QWidgetData)
  | QuickItem (d : QQuickItemData)
  | Plain
  deriving DecidableEq

/-- The object graph outside the helper: `objects id = none` when no live
object has identity `id` (never created, or destroyed). -/
structure World where
  objects : Nat → Option QObject

/-- External destruction of the object `id`. -/
def World.destroy (W : World) (id : Nat) : World :=
  { objects := fun k => if k = id then none else W.objects k }

/-- The test `QWidget::isMinimized()`. -/
def QWidgetData.isMinimized (d : QWidgetData) : Bool :=
  d.windowState &&& Qt.WindowMinimized != 0

/-- The test `QWidget::isMaximized()`. -/
def QWidgetData.isMaximized (d : QWidgetData) : Bool :=
  d.windowState &&& Qt.WindowMaximized != 0

/-- The test `QWidget::isFullScreen()`. -/
def QWidgetData.isFullScreen (d : QWidgetData) : Bool :=
  d.windowState &&& Qt.WindowFullScreen != 0

/-- A `QPointer<QObject>`: the identity it was built from, or `none` when
built from `nullptr`. -/
abbrev QPointer := Option Nat

/-- Reading a `QPointer`: the object while it is alive, `nullptr` after. -/
def QPointer.data (W : World) (p : QPointer) : Option Nat :=
  match p with
  | none => none
  | some id => if (W.objects id).isSome then some id else none

/-- The preprocessor configuration the file is compiled under. -/
structure BuildConfig where
  /-- Whether `QT_WIDGETS_LIB` is defined. -/
  widgetsLib : Bool
  /-- Whether `QT_QUICK_LIB` is defined. -/
  quickLib : Bool
  deriving DecidableEq, Repr

/-! ## The maps of the helper -/

/-- A `QHash` keyed by object identity, as an association list in which the
first entry of a key is the current one. -/
abbrev QHash (V : Type) := List (Nat × V)

/-- The lookup `QHash::value(key)`: the stored value, or a default-constructed
one when the key is absent. -/
def QHash.value {V : Type} (m : QHash V) (k : Nat) (dflt : V) : V :=
  (m.lookup k).getD dflt

/-- The assignment `hash[key] = v`. -/
def QHash.assign {V : Type} (m : QHash V) (k : Nat) (v : V) : QHash V :=
  (k, v) :: m.filter (fun e => e.1 != k)

/-- The state of a `FramelessHelper` instance. -/
structure FramelessHelper where
  m_borderWidth : Int
  m_borderHeight : Int
  m_titleBarHeight : Int
  m_ignoreAreas : QHash (List QRect)
  m_draggableAreas : QHash (List QRect)
  m_ignoreObjects : QHash (List QPointer)
  m_draggableObjects : QHash (List QPointer)
  m_fixedSize : QHash Bool
  m_disableTitleBar : QHash Bool

/-! ## Accessors -/

/-- Source: `FramelessHelper::getBorderWidth`. -/
def getBorderWidth (self : FramelessHelper) : Int := self.m_borderWidth

/-- Source: `FramelessHelper::setBorderWidth`. -/
def setBorderWidth (self : FramelessHelper) (val : Int) : FramelessHelper :=
  { self with m_borderWidth := val }

/-- Source: `FramelessHelper::getBorderHeight`. -/
def getBorderHeight (self : FramelessHelper) : Int := self.m_borderHeight

/-- Source: `FramelessHelper::setBorderHeight`. -/
def setBorderHeight (self : FramelessHelper) (val : Int) : FramelessHelper :=
  { self with m_borderHeight := val }

/-- Source: `FramelessHelper::getTitleBarHeight`. -/
def getTitleBarHeight (self : FramelessHelper) : Int := self.m_titleBarHeight

/-- Source: `FramelessHelper::setTitleBarHeight`. -/
def setTitleBarHeight (self : FramelessHelper) (val : Int) : FramelessHelper :=
  { self with m_titleBarHeight := val }

/-- Source: `FramelessHelper::getIgnoreAreas`. -/
def getIgnoreAreas (self : FramelessHelper) (obj : Option Nat) : List QRect :=
  match obj with
  | none => []
  | some k => self.m_ignoreAreas.value k []

/-- Source: `FramelessHelper::setIgnoreAreas`. -/
def setIgnoreAreas (self : FramelessHelper) (obj : Option Nat) (val : List QRect) :
    FramelessHelper :=
  match obj with
  | none => self
  | some k => { self with m_ignoreAreas := self.m_ignoreAreas.assign k val }

/-- Source: `FramelessHelper::addIgnoreArea`. -/
def addIgnoreArea (self : FramelessHelper) (obj : Option Nat) (val : QRect) :
    FramelessHelper :=
  match obj with
  | none => self
  | some k =>
    { self with
      m_ignoreAreas := self.m_ignoreAreas.assign k (self.m_ignoreAreas.value k [] ++ [val]) }

/-- Source: `FramelessHelper::clearIgnoreAreas`. -/
def clearIgnoreAreas (self : FramelessHelper) (obj : Option Nat) : FramelessHelper :=
  match obj with
  | none => self
  | some k => { self with m_ignoreAreas := self.m_ignoreAreas.assign k [] }

/-- Source: `FramelessHelper::getDraggableAreas`. -/
def getDraggableAreas (self : FramelessHelper) (obj : Option Nat) : List QRect :=
  match obj with
  | none => []
  | some k => self.m_draggableAreas.value k []

/-- Source: `FramelessHelper::setDraggableAreas`. -/
def setDraggableAreas (self : FramelessHelper) (obj : Option Nat) (val : List QRect) :
    FramelessHelper :=
  match obj with
  | none => self
  | some k => { self with m_draggableAreas := self.m_draggableAreas.assign k val }

/-- Source: `FramelessHelper::addDraggableArea`. -/
def addDraggableArea (self : FramelessHelper) (obj : Option Nat) (val : QRect) :
    FramelessHelper :=
  match obj with
  | none => self
  | some k =>
    { self with
      m_draggableAreas :=
        self.m_draggableAreas.assign k (self.m_draggableAreas.value k [] ++ [val]) }

/-- Source: `FramelessHelper::clearDraggableAreas`. -/
def clearDraggableAreas (self : FramelessHelper) (obj : Option Nat) : FramelessHelper :=
  match obj with
  | none => self
  | some k => { self with m_draggableAreas := self.m_draggableAreas.assign k [] }

/-- Source: `FramelessHelper::getIgnoreObjects`.  The stored `QPointer`s are
read against the current object graph; the null ones are left out. -/
def getIgnoreObjects (self : FramelessHelper) (W : World) (obj : Option Nat) : List Nat :=
  match obj with
  | none => []
  | some k => (self.m_ignoreObjects.value k []).filterMap (QPointer.data W)

/-- Source: `FramelessHelper::setIgnoreObjects`. -/
def setIgnoreObjects (self : FramelessHelper) (obj : Option Nat) (val : List (Option Nat)) :
    FramelessHelper :=
  match obj with
  | none => self
  | some k => { self with m_ignoreObjects := self.m_ignoreObjects.assign k val }

/-- Source: `FramelessHelper::addIgnoreObject`. -/
def addIgnoreObject (self : FramelessHelper) (obj : Option Nat) (val : Option Nat) :
    FramelessHelper :=
  match obj with
  | none => self
  | some k =>
    { self with
      m_ignoreObjects :=
        self.m_ignoreObjects.assign k (self.m_ignoreObjects.value k [] ++ [val]) }

/-- Source: `FramelessHelper::clearIgnoreObjects`. -/
def clearIgnoreObjects (self : FramelessHelper) (obj : Option Nat) : FramelessHelper :=
  match obj with
  | none => self
  | some k => { self with m_ignoreObjects := self.m_ignoreObjects.assign k [] }

/-- Source: `FramelessHelper::getDraggableObjects`. -/
def getDraggableObjects (self : FramelessHelper) (W : World) (obj : Option Nat) : List Nat :=
  match obj with
  | none => []
  | some k => (self.m_draggableObjects.value k []).filterMap (QPointer.data W)

/-- Source: `FramelessHelper::setDraggableObjects`. -/
def setDraggableObjects (self : FramelessHelper) (obj : Option Nat)
    (val : List (Option Nat)) : FramelessHelper :=
  match obj with
  | none => self
  | some k => { self with m_draggableObjects := self.m_draggableObjects.assign k val }

/-- Source: `FramelessHelper::addDraggableObject`. -/
def addDraggableObject (self : FramelessHelper) (obj : Option Nat) (val : Option Nat) :
    FramelessHelper :=
  match obj with
  | none => self
  | some k =>
    { self with
      m_draggableObjects :=
        self.m_draggableObjects.assign k (self.m_draggableObjects.value k [] ++ [val]) }

/-- Source: `FramelessHelper::clearDraggableObjects`. -/
def clearDraggableObjects (self : FramelessHelper) (obj : Option Nat) : FramelessHelper :=
  match obj with
  | none => self
  | some k => { self with m_draggableObjects := self.m_draggableObjects.assign k [] }

/-- Source: `FramelessHelper::getResizable`. -/
def getResizable (self : FramelessHelper) (obj : Option Nat) : Bool :=
  match obj with
  | none => true
  | some k => !(self.m_fixedSize.value k false)

/-- Source: `FramelessHelper::setResizable`. -/
def setResizable (self : FramelessHelper) (obj : Option Nat) (val : Bool) : FramelessHelper :=
  match obj with
  | none => self
  | some k => { self with m_fixedSize := self.m_fixedSize.assign k (!val) }

/-- Source: `FramelessHelper::getTitleBarEnabled`. -/
def getTitleBarEnabled (self : FramelessHelper) (obj : Option Nat) : Bool :=
  match obj with
  | none => true
  | some k => !(self.m_disableTitleBar.value k false)

/-- Source: `FramelessHelper::setTitleBarEnabled`. -/
def setTitleBarEnabled (self : FramelessHelper) (obj : Option Nat) (val : Bool) :
    FramelessHelper :=
  match obj with
  | none => self
  | some k => { self with m_disableTitleBar := self.m_disableTitleBar.assign k (!val) }

/-! ## Events and recorded toolkit calls -/

/-- What the code reads from a `QMouseEvent`. -/
structure QMouseEvent where
  /-- The result of `button()`: the button that caused the event. -/
  button : MouseButton
  /-- The result of `buttons()`: the mask of buttons held during the event. -/
  buttons : Nat
  screenPos : QPointF
  windowPos : QPointF

/-- What the code reads from a `QTouchEvent::TouchPoint`. -/
structure TouchPoint where
  screenPos : QPointF
  pos : QPointF

/-- An event, by `QEvent::type()`.  A touch event carries its first touch
point apart from the others, as `touchPoints().first()` requires a non-empty
list. -/
inductive QEvent
  | MouseButtonDblClick (e : QMouseEvent)
  | MouseButtonPress (e : QMouseEvent)
  | MouseMove (e : QMouseEvent)
  | TouchBegin (first : TouchPoint) (others : List TouchPoint)
  | TouchUpdate (first : TouchPoint) (others : List TouchPoint)
  | Other (type : Nat)

/-- A call into the toolkit.  `target` is the object the event filter was
called with; the `window...` calls are made on its `QWindow` (the object
itself, or the window handle of a widget), the `widget...` calls on the
widget itself. -/
inductive Effect
  | startSystemMove (target : Nat)
  | startSystemResize (target : Nat) (edges : Nat)
  | windowShowNormal (target : Nat)
  | windowShowMaximized (target : Nat)
  | windowSetCursor (target : Nat) (shape : CursorShape)
  | widgetShowNormal (target : Nat)
  | widgetShowMaximized (target : Nat)
  | widgetSetCursor (target : Nat) (shape : CursorShape)
  | qWarning (msg : String)
  deriving DecidableEq

/-- Whether the call is `startSystemMove`. -/
def Effect.isMove (eff : Effect) : Bool :=
  match eff with
  | Effect.startSystemMove _ => true
  | _ => false

/-- Whether the call is `startSystemResize`. -/
def Effect.isResize (eff : Effect) : Bool :=
  match eff with
  | Effect.startSystemResize _ _ => true
  | _ => false

/-- Whether the call is `setCursor`, on a window or on a widget. -/
def Effect.isSetCursor (eff : Effect) : Bool :=
  match eff with
  | Effect.windowSetCursor _ _ => true
  | Effect.widgetSetCursor _ _ => true
  | _ => false

/-! ## The window handle -/

/-- The lambda `validWindow` of `getWindowHandle`. -/
def validWindow (window : Option QWindowData) : Option QWindowData :=
  match window with
  | some d => if d.hasPlatformWindow then some d else none
  | none => none

/-- Source: `getWindowHandle` (anonymous namespace).  Returns the window and
the warnings logged. -/
def getWindowHandle (cfg : BuildConfig) (W : World) (val : Option Nat) :
    Option QWindowData × List Effect :=
  match val with
  | none => (none, [])
  | some id =>
    match W.objects id with
    | some (QObject.Window d) => (validWindow (some d), [])
    | some (QObject.Widget d) =>
      if cfg.widgetsLib then
        (if d.isTopLevel then validWindow d.windowHandle else none, [])
      else
        (none, [Effect.qWarning "Can\x27t acquire the window handle: only top level QWidget and QWindow are accepted."])
    | _ => (none, [Effect.qWarning "Can\x27t acquire the window handle: only top level QWidget and QWindow are accepted."])

/-! ## The lambdas of `eventFilter` -/

/-- The lambda `isWindowTopLevel`. -/
def isWindowTopLevel (cfg : BuildConfig) (W : World) (window : Option Nat) : Bool :=
  match window with
  | none => false
  | some id =>
    match W.objects id with
    | some (QObject.Window d) => d.isTopLevel
    | some (QObject.Widget d) => cfg.widgetsLib && d.isTopLevel
    | _ => false

/-- The lambda `getWindowEdges`: the `Qt::Edges` mask of a window-local point
in a window of width `ww` and height `wh`. -/
def getWindowEdges (self : FramelessHelper) (point : QPointF) (ww wh : Int) : Nat :=
  if point.y ≤ (self.m_borderHeight : ℚ) then
    if point.x ≤ (self.m_borderWidth : ℚ) then Qt.TopEdge ||| Qt.LeftEdge
    else if point.x ≥ ((ww - self.m_borderWidth : Int) : ℚ) then Qt.TopEdge ||| Qt.RightEdge
    else Qt.TopEdge
  else if point.y ≥ ((wh - self.m_borderHeight : Int) : ℚ) then
    if point.x ≤ (self.m_borderWidth : ℚ) then Qt.BottomEdge ||| Qt.LeftEdge
    else if point.x ≥ ((ww - self.m_borderWidth : Int) : ℚ) then
      Qt.BottomEdge ||| Qt.RightEdge
    else Qt.BottomEdge
  else if point.x ≤ (self.m_borderWidth : ℚ) then Qt.LeftEdge
  else if point.x ≥ ((ww - self.m_borderWidth : Int) : ℚ) then Qt.RightEdge
  else 0

/-- The lambda `getCursorShape`. -/
def getCursorShape (edges : Nat) : CursorShape :=
  if (testFlag edges Qt.TopEdge && testFlag edges Qt.LeftEdge) ||
      (testFlag edges Qt.BottomEdge && testFlag edges Qt.RightEdge) then
    CursorShape.SizeFDiagCursor
  else if (testFlag edges Qt.TopEdge && testFlag edges Qt.RightEdge) ||
      (testFlag edges Qt.BottomEdge && testFlag edges Qt.LeftEdge) then
    CursorShape.SizeBDiagCursor
  else if testFlag edges Qt.TopEdge || testFlag edges Qt.BottomEdge then
    CursorShape.SizeVerCursor
  else if testFlag edges Qt.LeftEdge || testFlag edges Qt.RightEdge then
    CursorShape.SizeHorCursor
  else CursorShape.ArrowCursor

/-- The lambda `isInSpecificAreas`. -/
def isInSpecificAreas (x y : Int) (areas : List QRect) : Bool :=
  areas.any (fun area => area.contains x y)

/-- The body of the loop of `isInSpecificObjects` for one object: whether the
global bounds of `obj` contain `(x, y)`.  Only the casts compiled in are
tried. -/
def objectContains (cfg : BuildConfig) (W : World) (x y : Int) (obj : Nat) : Bool :=
  match W.objects obj with
  | some (QObject.Widget d) =>
    cfg.widgetsLib && (QRect.ofXYWH d.globalX d.globalY d.width d.height).contains x y
  | some (QObject.QuickItem d) =>
    cfg.quickLib &&
      QRectF.contains { xp := d.globalX, yp := d.globalY, w := d.width, h := d.height } x y
  | _ => false

/-- The lambda `isInSpecificObjects`. -/
def isInSpecificObjects (cfg : BuildConfig) (W : World) (x y : Int) (objects : List Nat) :
    Bool :=
  objects.any (objectContains cfg W x y)

/-- The lambda `isInIgnoreAreas`. -/
def isInIgnoreAreas (self : FramelessHelper) (point : QPointF) (window : Option Nat) : Bool :=
  match window with
  | none => false
  | some _ => isInSpecificAreas (toInt point.x) (toInt point.y) (getIgnoreAreas self window)

/-- The lambda `isInIgnoreObjects`. -/
def isInIgnoreObjects (cfg : BuildConfig) (self : FramelessHelper) (W : World)
    (point : QPointF) (window : Option Nat) : Bool :=
  if cfg.widgetsLib || cfg.quickLib then
    match window with
    | none => false
    | some _ =>
      isInSpecificObjects cfg W (toInt point.x) (toInt point.y) (getIgnoreObjects self W window)
  else false

/-- The lambda `isInDraggableAreas`. -/
def isInDraggableAreas (self : FramelessHelper) (point : QPointF) (window : Option Nat) :
    Bool :=
  match window with
  | none => false
  | some _ =>
    let areas := getDraggableAreas self window
    if areas.isEmpty then true else isInSpecificAreas (toInt point.x) (toInt point.y) areas

/-- The lambda `isInDraggableObjects`. -/
def isInDraggableObjects (cfg : BuildConfig) (self : FramelessHelper) (W : World)
    (point : QPointF) (window : Option Nat) : Bool :=
  if cfg.widgetsLib || cfg.quickLib then
    match window with
    | none => false
    | some _ =>
      let objs := getDraggableObjects self W window
      if objs.isEmpty then true
      else isInSpecificObjects cfg W (toInt point.x) (toInt point.y) objs
  else true

/-- The lambda `isResizePermitted`. -/
def isResizePermitted (cfg : BuildConfig) (self : FramelessHelper) (W : World)
    (globalPoint point : QPointF) (window : Option Nat) : Bool :=
  match window with
  | none => false
  | some _ =>
    !isInIgnoreAreas self point window && !isInIgnoreObjects cfg self W globalPoint window

/-- The lambda `isInTitlebarArea`. -/
def isInTitlebarArea (cfg : BuildConfig) (self : FramelessHelper) (W : World)
    (globalPoint point : QPointF) (window : Option Nat) : Bool :=
  match window with
  | some _ =>
    decide (point.y ≤ (self.m_titleBarHeight : ℚ)) &&
      isInDraggableAreas self point window &&
      isInDraggableObjects cfg self W globalPoint window &&
      isResizePermitted cfg self W globalPoint point window &&
      getTitleBarEnabled self window
  | none => false

/-- The lambda `moveOrResize`, called with a non-null `object`. -/
def moveOrResize (cfg : BuildConfig) (self : FramelessHelper) (W : World)
    (globalPoint point : QPointF) (object : Nat) : List Effect :=
  match getWindowHandle cfg W (some object) with
  | (some window, log) =>
    let edges := getWindowEdges self point window.width window.height
    if edges = 0 then
      if isInTitlebarArea cfg self W globalPoint point (some object) then
        log ++ [Effect.startSystemMove object]
      else log
    else if testFlag window.windowStates Qt.WindowNoState &&
        isResizePermitted cfg self W globalPoint point (some object) &&
        getResizable self (some object) then
      log ++ [Effect.startSystemResize object edges]
    else log
  | (none, log) => log ++ [Effect.qWarning "Can\x27t move or resize the window: failed to acquire the window handle."]

/-- The `case QEvent::MouseButtonDblClick` of `eventFilter`. -/
def onMouseButtonDblClick (cfg : BuildConfig) (self : FramelessHelper) (W : World)
    (object : Nat) (e : QMouseEvent) : List Effect :=
  if e.button ≠ MouseButton.LeftButton then []
  else if isInTitlebarArea cfg self W e.screenPos e.windowPos (some object) then
    match W.objects object with
    | some (QObject.Window d) =>
      if testFlag d.windowStates Qt.WindowFullScreen then []
      else
        [if testFlag d.windowStates Qt.WindowMaximized then Effect.windowShowNormal object
          else Effect.windowShowMaximized object,
         Effect.windowSetCursor object CursorShape.ArrowCursor]
    | some (QObject.Widget d) =>
      if cfg.widgetsLib then
        if d.isFullScreen then []
        else
          [if d.isMaximized then Effect.widgetShowNormal object
            else Effect.widgetShowMaximized object,
           Effect.widgetSetCursor object CursorShape.ArrowCursor]
      else []
    | _ => []
  else []

/-- The `case QEvent::MouseButtonPress` of `eventFilter`. -/
def onMouseButtonPress (cfg : BuildConfig) (self : FramelessHelper) (W : World)
    (object : Nat) (e : QMouseEvent) : List Effect :=
  if e.button ≠ MouseButton.LeftButton then []
  else moveOrResize cfg self W e.screenPos e.windowPos object

/-- The `case QEvent::MouseMove` of `eventFilter`. -/
def onMouseMove (cfg : BuildConfig) (self : FramelessHelper) (W : World)
    (object : Nat) (e : QMouseEvent) : List Effect :=
  match getWindowHandle cfg W (some object) with
  | (some window, log) =>
    if testFlag window.windowStates Qt.WindowNoState && getResizable self (some object) then
      log ++ [Effect.windowSetCursor object
        (getCursorShape (getWindowEdges self e.windowPos window.width window.height))]
    else log
  | (none, log) =>
    if cfg.widgetsLib then
      match W.objects object with
      | some (QObject.Widget d) =>
        if !d.isMinimized && !d.isMaximized && !d.isFullScreen &&
            getResizable self (some object) then
          log ++ [Effect.widgetSetCursor object
            (getCursorShape (getWindowEdges self e.windowPos d.width d.height))]
        else log
      | _ => log
    else log

/-- Source: `FramelessHelper::eventFilter`.  Returns the result of the filter
and the toolkit calls it made, in order. -/
def eventFilter (cfg : BuildConfig) (self : FramelessHelper) (W : World)
    (object : Option Nat) (event : QEvent) : Bool × List Effect :=
  match object with
  | none => (false, [])
  | some obj =>
    if !isWindowTopLevel cfg W object then (false, [])
    else
      match event with
      | QEvent.MouseButtonDblClick e => (false, onMouseButtonDblClick cfg self W obj e)
      | QEvent.MouseButtonPress e => (false, onMouseButtonPress cfg self W obj e)
      | QEvent.MouseMove e => (false, onMouseMove cfg self W obj e)
      | QEvent.TouchBegin first _ => (false, moveOrResize cfg self W first.screenPos first.pos obj)
      | QEvent.TouchUpdate first _ =>
        (false, moveOrResize cfg self W first.screenPos first.pos obj)
      | QEvent.Other _ => (false, [])

/-! ## What the recorded calls do to the object graph

The toolkit side of the calls, as far as the code can observe it afterwards:
`showNormal` and `showMaximized` rewrite the state mask, `setCursor` the
cursor.  Handing a drag to the system and logging leave the modelled state
as it is. -/

/-- The mask `Qt::WindowMinimized | Qt::WindowMaximized | Qt::WindowFullScreen`. -/
abbrev specialStates : Nat :=
  Qt.WindowMinimized ||| Qt.WindowMaximized ||| Qt.WindowFullScreen

/-- The state mask of a widget after `QWidget::showNormal()`: the minimized,
maximized and fullscreen bits are cleared. -/
def widgetNormalState (s : Nat) : Nat := s ^^^ (s &&& specialStates)

/-- The state mask of a widget after `QWidget::showMaximized()`: the minimized
and fullscreen bits are cleared, the maximized bit is set. -/
def widgetMaximizedState (s : Nat) : Nat :=
  (s ^^^ (s &&& (Qt.WindowMinimized ||| Qt.WindowFullScreen))) ||| Qt.WindowMaximized

/-- Replace the object `id`. -/
def World.set (W : World) (id : Nat) (o : QObject) : World :=
  { objects := fun k => if k = id then some o else W.objects k }

/-- The effect of one recorded call on the object graph. -/
def applyEffect (W : World) (eff : Effect) : World :=
  match eff with
  | Effect.windowShowNormal t =>
    match W.objects t with
    | some (QObject.Window d) =>
      W.set t (QObject.Window { d with windowStates := Qt.WindowNoState })
    | _ => W
  | Effect.windowShowMaximized t =>
    match W.objects t with
    | some (QObject.Window d) =>
      W.set t (QObject.Window { d with windowStates := Qt.WindowMaximized })
    | _ => W
  | Effect.windowSetCursor t shape =>
    match W.objects t with
    | some (QObject.Window d) => W.set t (QObject.Window { d with cursor := shape })
    | some (QObject.Widget d) =>
      W.set t (QObject.Widget
        { d with windowHandle := d.windowHandle.map (fun w => { w with cursor := shape }) })
    | _ => W
  | Effect.widgetShowNormal t =>
    match W.objects t with
    | some (QObject.Widget d) =>
      W.set t (QObject.Widget
        { d with
          windowState := widgetNormalState d.windowState
          windowHandle := d.windowHandle.map (fun w =>
            { w with windowStates := widgetNormalState d.windowState &&& specialStates }) })
    | _ => W
  | Effect.widgetShowMaximized t =>
    match W.objects t with
    | some (QObject.Widget d) =>
      W.set t (QObject.Widget
        { d with
          windowState := widgetMaximizedState d.windowState
          windowHandle := d.windowHandle.map (fun w =>
            { w with windowStates := widgetMaximizedState d.windowState &&& specialStates }) })
    | _ => W
  | Effect.widgetSetCursor t shape =>
    match W.objects t with
    | some (QObject.Widget d) => W.set t (QObject.Widget { d with cursor := shape })
    | _ => W
  | _ => W

/-- The object graph after `eventFilter` has handled `event`. -/
def eventFilterRun (cfg : BuildConfig) (self : FramelessHelper) (W : World)
    (object : Option Nat) (event : QEvent) : World :=
  (eventFilter cfg self W object event).2.foldl applyEffect W

/-- The window-state mask of an object: `windowStates()` of a `QWindow`, the
widget's own mask for a `QWidget`. -/
def stateOf (W : World) (id : Nat) : Option Nat :=
  match W.objects id with
  | some (QObject.Window d) => some d.windowStates
  | some (QObject.Widget d) => some d.windowState
  | _ => none

/-- The cursor of an object: of the `QWindow`, or of the `QWidget` itself. -/
def cursorOf (W : World) (id : Nat) : Option CursorShape :=
  match W.objects id with
  | some (QObject.Window d) => some d.cursor
  | some (QObject.Widget d) => some d.cursor
  | _ => none

/-- A target the filter is not meant for: a null pointer, an object that is
neither a window nor a widget, or a window or widget that is not top-level. -/
def isForeignTarget (W : World) (object : Option Nat) : Bool :=
  match object with
  | none => true
  | some id =>
    match W.objects id with
    | some (QObject.Window d) => !d.isTopLevel
    | some (QObject.Widget d) => !d.isTopLevel
    | _ => true

/-- A window no operation has written a configuration for: none of the six
maps has an entry under its key. -/
def isUnconfigured (self : FramelessHelper) (k : Nat) : Bool :=
  (self.m_ignoreAreas.lookup k).isNone && (self.m_draggableAreas.lookup k).isNone &&
    (self.m_ignoreObjects.lookup k).isNone && (self.m_draggableObjects.lookup k).isNone &&
    (self.m_fixedSize.lookup k).isNone && (self.m_disableTitleBar.lookup k).isNone

/-! ## Centering -/

/-- The toolkit function `qRound(double)` of Qt 5:
`d >= 0.0 ? int(d + 0.5) : int(d - double(int(d-1)) + 0.5) + int(d-1)`. -/
def qRound (d : ℚ) : Int :=
  if d ≥ 0 then toInt (d + 1 / 2)
  else toInt (d - ((toInt (d - 1) : Int) : ℚ) + 1 / 2) + toInt (d - 1)

/-- The expression `qRound(static_cast<qreal>(s - w) / 2.0)` of
`moveWindowToDesktopCenter`, for a screen extent `s` and a window extent `w`. -/
def centerCoordinate (s w : Int) : Int := qRound (((s - w : Int) : ℚ) / 2)

/-- Source: `FramelessHelper::moveWindowToDesktopCenter`.  Returns the object
graph after the call and the warnings logged. -/
def moveWindowToDesktopCenter (cfg : BuildConfig) (W : World) (obj : Option Nat) :
    World × List Effect :=
  match obj with
  | none => (W, [])
  | some id =>
    match W.objects id with
    | some (QObject.Window d) =>
      (W.set id (QObject.Window
        { d with
          x := centerCoordinate d.screenWidth d.width
          y := centerCoordinate d.screenHeight d.height }), [])
    | some (QObject.Widget d) =>
      if cfg.widgetsLib then
        if d.isTopLevel then
          (W.set id (QObject.Widget
            { d with
              x := centerCoordinate d.screenWidth d.width
              y := centerCoordinate d.screenHeight d.height }), [])
        else (W, [])
      else (W, [Effect.qWarning "The given QObject is not a top level window."])
    | _ => (W, [Effect.qWarning "The given QObject is not a top level window."])

/-- The position of an object, in the coordinates of the virtual desktop. -/
def positionOf (W : World) (id : Nat) : Option (Int × Int) :=
  match W.objects id with
  | some (QObject.Window d) => some (d.x, d.y)
  | some (QObject.Widget d) => some (d.x, d.y)
  | _ => none

/-- The position of an object measured from the top-left corner of the screen
it is on. -/
def screenPositionOf (W : World) (id : Nat) : Option (Int × Int) :=
  match W.objects id with
  | some (QObject.Window d) => some (d.x - d.screenX, d.y - d.screenY)
  | some (QObject.Widget d) => some (d.x - d.screenX, d.y - d.screenY)
  | _ => none

/-- The size of an object. -/
def extentOf (W : World) (id : Nat) : Option (Int × Int) :=
  match W.objects id with
  | some (QObject.Window d) => some (d.width, d.height)
  | some (QObject.Widget d) => some (d.width, d.height)
  | _ => none

/-! ## Sequences of calls on the configuration -/

/-- A call of one of the three scalar setters. -/
inductive ScalarCall
  | setBorderWidth (val : Int)
  | setBorderHeight (val : Int)
  | setTitleBarHeight (val : Int)
  deriving DecidableEq, Repr

/-- The argument of a scalar setter call. -/
def scalarCallArg (c : ScalarCall) : Int :=
  match c with
  | ScalarCall.setBorderWidth val => val
  | ScalarCall.setBorderHeight val => val
  | ScalarCall.setTitleBarHeight val => val

/-- Perform one scalar setter call. -/
def runScalarCall (self : FramelessHelper) (c : ScalarCall) : FramelessHelper :=
  match c with
  | ScalarCall.setBorderWidth val => setBorderWidth self val
  | ScalarCall.setBorderHeight val => setBorderHeight self val
  | ScalarCall.setTitleBarHeight val => setTitleBarHeight self val

/-- Perform a sequence of scalar setter calls, first to last. -/
def runScalarCalls (self : FramelessHelper) (calls : List ScalarCall) : FramelessHelper :=
  calls.foldl runScalarCall self

/-- The six kinds of per-window configuration. -/
inductive ConfigKind
  | ignoreAreas
  | draggableAreas
  | ignoreObjects
  | draggableObjects
  | resizable
  | titleBarEnabled
  deriving DecidableEq, Repr

/-- What a per-window getter returns. -/
inductive ConfigValue
  | areas (val : List QRect)
  | objects (val : List Nat)
  | flag (val : Bool)
  deriving DecidableEq

/-- The getter of a kind of configuration. -/
def readConfig (kind : ConfigKind) (self : FramelessHelper) (W : World) (obj : Option Nat) :
    ConfigValue :=
  match kind with
  | ConfigKind.ignoreAreas => ConfigValue.areas (getIgnoreAreas self obj)
  | ConfigKind.draggableAreas => ConfigValue.areas (getDraggableAreas self obj)
  | ConfigKind.ignoreObjects => ConfigValue.objects (getIgnoreObjects self W obj)
  | ConfigKind.draggableObjects => ConfigValue.objects (getDraggableObjects self W obj)
  | ConfigKind.resizable => ConfigValue.flag (getResizable self obj)
  | ConfigKind.titleBarEnabled => ConfigValue.flag (getTitleBarEnabled self obj)

/-- A call of one of the fourteen per-window set, add and clear operations,
without its window argument. -/
inductive ConfigCall
  | setIgnoreAreas (val : List QRect)
  | addIgnoreArea (val : QRect)
  | clearIgnoreAreas
  | setDraggableAreas (val : List QRect)
  | addDraggableArea (val : QRect)
  | clearDraggableAreas
  | setIgnoreObjects (val : List (Option Nat))
  | addIgnoreObject (val : Option Nat)
  | clearIgnoreObjects
  | setDraggableObjects (val : List (Option Nat))
  | addDraggableObject (val : Option Nat)
  | clearDraggableObjects
  | setResizable (val : Bool)
  | setTitleBarEnabled (val : Bool)

/-- The kind of configuration an operation names. -/
def configCallKind (c : ConfigCall) : ConfigKind :=
  match c with
  | ConfigCall.setIgnoreAreas _ => ConfigKind.ignoreAreas
  | ConfigCall.addIgnoreArea _ => ConfigKind.ignoreAreas
  | ConfigCall.clearIgnoreAreas => ConfigKind.ignoreAreas
  | ConfigCall.setDraggableAreas _ => ConfigKind.draggableAreas
  | ConfigCall.addDraggableArea _ => ConfigKind.draggableAreas
  | ConfigCall.clearDraggableAreas => ConfigKind.draggableAreas
  | ConfigCall.setIgnoreObjects _ => ConfigKind.ignoreObjects
  | ConfigCall.addIgnoreObject _ => ConfigKind.ignoreObjects
  | ConfigCall.clearIgnoreObjects => ConfigKind.ignoreObjects
  | ConfigCall.setDraggableObjects _ => ConfigKind.draggableObjects
  | ConfigCall.addDraggableObject _ => ConfigKind.draggableObjects
  | ConfigCall.clearDraggableObjects => ConfigKind.draggableObjects
  | ConfigCall.setResizable _ => ConfigKind.resizable
  | ConfigCall.setTitleBarEnabled _ => ConfigKind.titleBarEnabled

/-- Perform one per-window operation on the window `obj`. -/
def runConfigCall (self : FramelessHelper) (obj : Option Nat) (c : ConfigCall) :
    FramelessHelper :=
  match c with
  | ConfigCall.setIgnoreAreas val => setIgnoreAreas self obj val
  | ConfigCall.addIgnoreArea val => addIgnoreArea self obj val
  | ConfigCall.clearIgnoreAreas => clearIgnoreAreas self obj
  | ConfigCall.setDraggableAreas val => setDraggableAreas self obj val
  | ConfigCall.addDraggableArea val => addDraggableArea self obj val
  | ConfigCall.clearDraggableAreas => clearDraggableAreas self obj
  | ConfigCall.setIgnoreObjects val => setIgnoreObjects self obj val
  | ConfigCall.addIgnoreObject val => addIgnoreObject self obj val
  | ConfigCall.clearIgnoreObjects => clearIgnoreObjects self obj
  | ConfigCall.setDraggableObjects val => setDraggableObjects self obj val
  | ConfigCall.addDraggableObject val => addDraggableObject self obj val
  | ConfigCall.clearDraggableObjects => clearDraggableObjects self obj
  | ConfigCall.setResizable val => setResizable self obj val
  | ConfigCall.setTitleBarEnabled val => setTitleBarEnabled self obj val

/-! ## Sample configurations

Concrete helpers, objects and events, used to instantiate the theorems
below. -/

/-- A helper with 8-pixel borders, a 30-pixel title bar and no per-window
configuration. -/
def sampleHelper : FramelessHelper :=
  { m_borderWidth := 8, m_borderHeight := 8, m_titleBarHeight := 30,
    m_ignoreAreas := [], m_draggableAreas := [], m_ignoreObjects := [],
    m_draggableObjects := [], m_fixedSize := [], m_disableTitleBar := [] }

/-- A build with both the widgets and the quick library. -/
def fullBuild : BuildConfig := { widgetsLib := true, quickLib := true }

/-- A build with neither the widgets nor the quick library. -/
def bareBuild : BuildConfig := { widgetsLib := false, quickLib := false }

/-- A top-level 800x600 `QWindow` with a platform window, in the normal state. -/
def sampleWindow : QWindowData :=
  { hasPlatformWindow := true, isTopLevel := true, width := 800, height := 600,
    windowStates := Qt.WindowNoState, cursor := CursorShape.OtherCursor 0,
    x := 100, y := 100, screenWidth := 1920, screenHeight := 1080,
    screenX := 0, screenY := 0 }

/-- The object graph with `sampleWindow` as object 1 and nothing else. -/
def sampleWorld : World :=
  { objects := fun k => if k = 1 then some (QObject.Window sampleWindow) else none }

/-- As `sampleWorld`, with the window maximized. -/
def maximizedWorld : World :=
  { objects := fun k =>
      if k = 1 then
        some (QObject.Window { sampleWindow with windowStates := Qt.WindowMaximized })
      else none }

/-- As `sampleWorld`, but the window is a child window: it has a platform
window and is not top-level. -/
def childWorld : World :=
  { objects := fun k =>
      if k = 1 then some (QObject.Window { sampleWindow with isTopLevel := false })
      else none }

/-- A primary-button mouse event at the window-local point `(x, y)`, the
window being at `(100, 100)` on the screen. -/
def leftAt (x y : ℚ) : QMouseEvent :=
  { button := MouseButton.LeftButton, buttons := 1,
    screenPos := { x := x + 100, y := y + 100 }, windowPos := { x := x, y := y } }

/-- The helper `sampleHelper` after declaring the top-left 100x30 rectangle of
window 1 an ignore area. -/
def ignoreHelper : FramelessHelper :=
  setIgnoreAreas sampleHelper (some 1) [QRect.ofXYWH 0 0 100 30]

/-- The object graph of `sampleWorld` with two more objects: a 100x30 widget
at the global position `(100, 100)` as object 2, and a plain `QObject` as
object 3. -/
def widgetWorld : World :=
  { objects := fun k =>
      if k = 1 then some (QObject.Window sampleWindow)
      else if k = 2 then
        some (QObject.Widget
          { isTopLevel := false, windowHandle := none, width := 100, height := 30,
            globalX := 100, globalY := 100, windowState := Qt.WindowNoState,
            cursor := CursorShape.ArrowCursor, x := 0, y := 0,
            screenWidth := 1920, screenHeight := 1080, screenX := 0, screenY := 0 })
      else if k = 3 then some QObject.Plain
      else none }

/-- The helper `sampleHelper` after `addDraggableObject(1, 2)`. -/
def draggableHelper : FramelessHelper :=
  addDraggableObject sampleHelper (some 1) (some 2)

/-- The helper `sampleHelper` after `addDraggableObject(1, 3)`. -/
def plainDraggableHelper : FramelessHelper :=
  addDraggableObject sampleHelper (some 1) (some 3)

/-- The helper `sampleHelper` after `setDraggableAreas(1, {QRect(200, 0, 100, 30)})`:
the only draggable rectangle of window 1 spans `x` from 200 to 299 and `y` from
0 to 29. -/
def draggableAreaHelper : FramelessHelper :=
  setDraggableAreas sampleHelper (some 1) [QRect.ofXYWH 200 0 100 30]

/-- As `sampleWorld`, but no platform window has been created for the window:
`handle()` is null. -/
def handlelessWorld : World :=
  { objects := fun k =>
      if k = 1 then some (QObject.Window { sampleWindow with hasPlatformWindow := false })
      else none }

/-- A pointer move to the window-local point `(x, y)` while the primary button
is held: `button()` is `NoButton`, `buttons()` is the mask `LeftButton`. -/
def heldMoveAt (x y : ℚ) : QMouseEvent :=
  { button := MouseButton.NoButton, buttons := 1,
    screenPos := { x := x + 100, y := y + 100 }, windowPos := { x := x, y := y } }

/-- As `sampleWorld`, but the window is on a second 1920x1080 screen placed to
the right of the first: the top-left corner of that screen is `(1920, 0)` and
the window is at `(2000, 100)`. -/
def secondScreenWorld : World :=
  { objects := fun k =>
      if k = 1 then
        some (QObject.Window { sampleWindow with x := 2000, y := 100, screenX := 1920 })
      else none }

/-! ## Hit testing -/

theorem getWindowEdges_cases (self : FramelessHelper) (point : QPointF) (ww wh : Int) :
    getWindowEdges self point ww wh ∈
      [0, Qt.TopEdge, Qt.BottomEdge, Qt.LeftEdge, Qt.RightEdge,
        Qt.TopEdge ||| Qt.LeftEdge, Qt.TopEdge ||| Qt.RightEdge,
        Qt.BottomEdge ||| Qt.LeftEdge, Qt.BottomEdge ||| Qt.RightEdge] := by
  unfold getWindowEdges
  split_ifs <;> decide

/-- C1: for every border width and height, window size and window-local point,
the edge set of `getWindowEdges` has Top iff `y <= bh`, Bottom iff `y > bh` and
`y >= wh - bh`, Left iff `x <= bw`, Right iff `x > bw` and `x >= ww - bw`; it is
one of the nine sets (none, one edge, or a corner) and never holds both Top and
Bottom or both Left and Right. -/
theorem hit_test_membership (self : FramelessHelper) (point : QPointF) (ww wh : Int) :
    (testFlag (getWindowEdges self point ww wh) Qt.TopEdge = true ↔
        point.y ≤ (self.m_borderHeight : ℚ)) ∧
    (testFlag (getWindowEdges self point ww wh) Qt.BottomEdge = true ↔
        point.y > (self.m_borderHeight : ℚ) ∧
          point.y ≥ ((wh - self.m_borderHeight : Int) : ℚ)) ∧
    (testFlag (getWindowEdges self point ww wh) Qt.LeftEdge = true ↔
        point.x ≤ (self.m_borderWidth : ℚ)) ∧
    (testFlag (getWindowEdges self point ww wh) Qt.RightEdge = true ↔
        point.x > (self.m_borderWidth : ℚ) ∧
          point.x ≥ ((ww - self.m_borderWidth : Int) : ℚ)) ∧
    getWindowEdges self point ww wh ∈
      [0, Qt.TopEdge, Qt.BottomEdge, Qt.LeftEdge, Qt.RightEdge,
        Qt.TopEdge ||| Qt.LeftEdge, Qt.TopEdge ||| Qt.RightEdge,
        Qt.BottomEdge ||| Qt.LeftEdge, Qt.BottomEdge ||| Qt.RightEdge] ∧
    ¬ (testFlag (getWindowEdges self point ww wh) Qt.TopEdge = true ∧
        testFlag (getWindowEdges self point ww wh) Qt.BottomEdge = true) ∧
    ¬ (testFlag (getWindowEdges self point ww wh) Qt.LeftEdge = true ∧
        testFlag (getWindowEdges self point ww wh) Qt.RightEdge = true) := by
  refine ⟨?_, ?_, ?_, ?_, getWindowEdges_cases self point ww wh, ?_, ?_⟩
  all_goals unfold getWindowEdges
  all_goals split_ifs
  all_goals first
    | decide
    | exact iff_of_true (by decide)
        (by first | assumption | linarith | exact ⟨by linarith, by linarith⟩)
    | exact iff_of_false (by decide) (by intro h; linarith)

/-- C5: on every edge set the hit test returns, `getCursorShape` is
`SizeFDiagCursor` iff the set is Top+Left or Bottom+Right, `SizeBDiagCursor` iff
it is Top+Right or Bottom+Left, `SizeVerCursor` iff it is Top or Bottom alone,
`SizeHorCursor` iff it is Left or Right alone, and `ArrowCursor` iff it is
empty. -/
theorem cursor_shape_of_edges (self : FramelessHelper) (point : QPointF) (ww wh : Int) :
    (getCursorShape (getWindowEdges self point ww wh) = CursorShape.SizeFDiagCursor ↔
        getWindowEdges self point ww wh = Qt.TopEdge ||| Qt.LeftEdge ∨
          getWindowEdges self point ww wh = Qt.BottomEdge ||| Qt.RightEdge) ∧
    (getCursorShape (getWindowEdges self point ww wh) = CursorShape.SizeBDiagCursor ↔
        getWindowEdges self point ww wh = Qt.TopEdge ||| Qt.RightEdge ∨
          getWindowEdges self point ww wh = Qt.BottomEdge ||| Qt.LeftEdge) ∧
    (getCursorShape (getWindowEdges self point ww wh) = CursorShape.SizeVerCursor ↔
        getWindowEdges self point ww wh = Qt.TopEdge ∨
          getWindowEdges self point ww wh = Qt.BottomEdge) ∧
    (getCursorShape (getWindowEdges self point ww wh) = CursorShape.SizeHorCursor ↔
        getWindowEdges self point ww wh = Qt.LeftEdge ∨
          getWindowEdges self point ww wh = Qt.RightEdge) ∧
    (getCursorShape (getWindowEdges self point ww wh) = CursorShape.ArrowCursor ↔
        getWindowEdges self point ww wh = 0) := by
  have hmem := getWindowEdges_cases self point ww wh
  generalize getWindowEdges self point ww wh = E at hmem ⊢
  simp only [List.mem_cons, List.mem_singleton, List.not_mem_nil, or_false] at hmem
  rcases hmem with h | h | h | h | h | h | h | h | h <;> subst h <;> decide

/-- C6: with 8-pixel borders in an 800x600 window, `(4, 4)` gives Top+Left and
the forward-diagonal cursor, `(400, 4)` gives Top and the vertical cursor,
`(796, 300)` gives Right and the horizontal cursor, `(400, 300)` gives no edge
and the arrow. -/
theorem hit_test_examples (self : FramelessHelper) :
    (getWindowEdges { self with m_borderWidth := 8, m_borderHeight := 8 } ⟨4, 4⟩ 800 600 =
        Qt.TopEdge ||| Qt.LeftEdge ∧
      getCursorShape
          (getWindowEdges { self with m_borderWidth := 8, m_borderHeight := 8 } ⟨4, 4⟩ 800 600) =
        CursorShape.SizeFDiagCursor) ∧
    (getWindowEdges { self with m_borderWidth := 8, m_borderHeight := 8 } ⟨400, 4⟩ 800 600 =
        Qt.TopEdge ∧
      getCursorShape
          (getWindowEdges { self with m_borderWidth := 8, m_borderHeight := 8 } ⟨400, 4⟩ 800 600) =
        CursorShape.SizeVerCursor) ∧
    (getWindowEdges { self with m_borderWidth := 8, m_borderHeight := 8 } ⟨796, 300⟩ 800 600 =
        Qt.RightEdge ∧
      getCursorShape
          (getWindowEdges { self with m_borderWidth := 8, m_borderHeight := 8 } ⟨796, 300⟩ 800 600) =
        CursorShape.SizeHorCursor) ∧
    (getWindowEdges { self with m_borderWidth := 8, m_borderHeight := 8 } ⟨400, 300⟩ 800 600 =
        0 ∧
      getCursorShape
          (getWindowEdges { self with m_borderWidth := 8, m_borderHeight := 8 } ⟨400, 300⟩ 800 600) =
        CursorShape.ArrowCursor) := by
  have e1 : getWindowEdges { self with m_borderWidth := 8, m_borderHeight := 8 } ⟨4, 4⟩ 800 600
      = Qt.TopEdge ||| Qt.LeftEdge := by norm_num [getWindowEdges]
  have e2 : getWindowEdges { self with m_borderWidth := 8, m_borderHeight := 8 } ⟨400, 4⟩ 800 600
      = 1 := by norm_num [getWindowEdges]
  have e3 : getWindowEdges { self with m_borderWidth := 8, m_borderHeight := 8 } ⟨796, 300⟩ 800 600
      = 4 := by norm_num [getWindowEdges]
  have e4 : getWindowEdges { self with m_borderWidth := 8, m_borderHeight := 8 } ⟨400, 300⟩ 800 600
      = 0 := by norm_num [getWindowEdges]
  rw [e1, e2, e3, e4]
  decide

/-! ## Dispatch -/

theorem testFlag_noState (s : Nat) : testFlag s Qt.WindowNoState = true ↔ s = 0 := by
  simp [testFlag]

theorem getWindowHandle_some_log (cfg : BuildConfig) (W : World) (val : Option Nat)
    (window : QWindowData) (h : (getWindowHandle cfg W val).1 = some window) :
    (getWindowHandle cfg W val).2 = [] := by
  cases val with
  | none => rfl
  | some id =>
    simp only [getWindowHandle] at h ⊢
    cases hW : W.objects id with
    | none => simp [hW] at h
    | some o =>
      cases o with
      | Window d => simp
      | Widget d =>
        by_cases hc : cfg.widgetsLib = true
        · simp [hc]
        · simp [hW, hc] at h
      | QuickItem d => simp [hW] at h
      | Plain => simp [hW] at h

theorem getWindowHandle_log_quiet (cfg : BuildConfig) (W : World) (val : Option Nat) :
    ∀ eff ∈ (getWindowHandle cfg W val).2, eff.isMove = false ∧ eff.isResize = false := by
  unfold getWindowHandle
  split
  · simp
  · split
    · simp
    · split_ifs <;> simp [Effect.isMove, Effect.isResize]
    · simp [Effect.isMove, Effect.isResize]

theorem moveOrResize_eq (cfg : BuildConfig) (self : FramelessHelper) (W : World)
    (g p : QPointF) (object : Nat) (window : QWindowData)
    (h : (getWindowHandle cfg W (some object)).1 = some window) :
    moveOrResize cfg self W g p object =
      if getWindowEdges self p window.width window.height = 0 then
        if isInTitlebarArea cfg self W g p (some object) then [Effect.startSystemMove object]
        else []
      else if testFlag window.windowStates Qt.WindowNoState &&
          isResizePermitted cfg self W g p (some object) &&
          getResizable self (some object) then
        [Effect.startSystemResize object (getWindowEdges self p window.width window.height)]
      else [] := by
  have hlog := getWindowHandle_some_log cfg W (some object) window h
  unfold moveOrResize
  rcases hgw : getWindowHandle cfg W (some object) with ⟨hd, log⟩
  rw [hgw] at h hlog
  simp only at h hlog
  subst h hlog
  simp

theorem moveOrResize_none (cfg : BuildConfig) (self : FramelessHelper) (W : World)
    (g p : QPointF) (object : Nat)
    (h : (getWindowHandle cfg W (some object)).1 = none) :
    ∀ eff ∈ moveOrResize cfg self W g p object,
      eff.isMove = false ∧ eff.isResize = false := by
  have hq := getWindowHandle_log_quiet cfg W (some object)
  unfold moveOrResize
  rcases hgw : getWindowHandle cfg W (some object) with ⟨hd, log⟩
  rw [hgw] at h hq
  simp only at h hq
  subst h
  intro eff heff
  simp only [List.mem_append, List.mem_singleton] at heff
  rcases heff with heff | heff
  · exact hq eff heff
  · subst heff
    simp [Effect.isMove, Effect.isResize]

theorem eventFilter_press_eq (cfg : BuildConfig) (self : FramelessHelper) (W : World)
    (object : Nat) (e : QMouseEvent)
    (htop : isWindowTopLevel cfg W (some object) = true)
    (hbtn : e.button = MouseButton.LeftButton) :
    (eventFilter cfg self W (some object) (QEvent.MouseButtonPress e)).2 =
      moveOrResize cfg self W e.screenPos e.windowPos object := by
  simp [eventFilter, htop, onMouseButtonPress, hbtn]

/-- C2 (as amended): for a top-level target with a valid window handle and a
primary-button press, with `E` the edges of the press point: a system move is
started iff `E` is empty and the point is in the title-bar area; a system
resize is started, with exactly the edges `E`, iff `E` is non-empty, the
window handle is in the normal state, resize is permitted and the target is
resizable; nothing else is started, and never both. -/
theorem press_dispatch (cfg : BuildConfig) (self : FramelessHelper) (W : World)
    (object : Nat) (window : QWindowData) (e : QMouseEvent)
    (htop : isWindowTopLevel cfg W (some object) = true)
    (hwin : (getWindowHandle cfg W (some object)).1 = some window)
    (hbtn : e.button = MouseButton.LeftButton) :
    (Effect.startSystemMove object ∈
        (eventFilter cfg self W (some object) (QEvent.MouseButtonPress e)).2 ↔
      getWindowEdges self e.windowPos window.width window.height = 0 ∧
        isInTitlebarArea cfg self W e.screenPos e.windowPos (some object) = true) ∧
    (∀ edges, Effect.startSystemResize object edges ∈
        (eventFilter cfg self W (some object) (QEvent.MouseButtonPress e)).2 ↔
      edges = getWindowEdges self e.windowPos window.width window.height ∧
        getWindowEdges self e.windowPos window.width window.height ≠ 0 ∧
        window.windowStates = Qt.WindowNoState ∧
        isResizePermitted cfg self W e.screenPos e.windowPos (some object) = true ∧
        getResizable self (some object) = true) ∧
    ((eventFilter cfg self W (some object) (QEvent.MouseButtonPress e)).2 = [] ∨
      (eventFilter cfg self W (some object) (QEvent.MouseButtonPress e)).2 =
        [Effect.startSystemMove object] ∨
      (eventFilter cfg self W (some object) (QEvent.MouseButtonPress e)).2 =
        [Effect.startSystemResize object
          (getWindowEdges self e.windowPos window.width window.height)]) ∧
    ¬ (Effect.startSystemMove object ∈
          (eventFilter cfg self W (some object) (QEvent.MouseButtonPress e)).2 ∧
        ∃ edges, Effect.startSystemResize object edges ∈
          (eventFilter cfg self W (some object) (QEvent.MouseButtonPress e)).2) := by
  rw [eventFilter_press_eq cfg self W object e htop hbtn,
    moveOrResize_eq cfg self W e.screenPos e.windowPos object window hwin]
  have hns := testFlag_noState window.windowStates
  by_cases hE : getWindowEdges self e.windowPos window.width window.height = 0
  · by_cases ht : isInTitlebarArea cfg self W e.screenPos e.windowPos (some object) = true
    · simp [hE, ht]
    · simp [hE, ht]
  · by_cases hr : (testFlag window.windowStates Qt.WindowNoState &&
        isResizePermitted cfg self W e.screenPos e.windowPos (some object) &&
        getResizable self (some object)) = true
    · rw [if_neg hE, if_pos hr]
      simp only [Bool.and_eq_true] at hr
      obtain ⟨⟨h1, h2⟩, h3⟩ := hr
      simp [hE, hns.mp h1, h2, h3]
    · rw [if_neg hE, if_neg hr]
      refine ⟨by simp [hE], ?_, Or.inl rfl, by simp⟩
      intro edges
      simp only [List.not_mem_nil, false_iff]
      rintro ⟨-, -, h1, h2, h3⟩
      exact hr (by simp [hns.mpr h1, h2, h3])

/-- C2 as stated fails: a child `QWindow` has a valid window handle, the press
at `(400, 10)` has no edges and lies in the title-bar area, and no system move
is started, because the filter leaves targets that are not top-level alone. -/
theorem press_dispatch_child_window :
    (getWindowHandle fullBuild childWorld (some 1)).1 =
        some { sampleWindow with isTopLevel := false } ∧
      ¬ (Effect.startSystemMove 1 ∈
          (eventFilter fullBuild sampleHelper childWorld (some 1)
            (QEvent.MouseButtonPress (leftAt 400 10))).2 ↔
        getWindowEdges sampleHelper (leftAt 400 10).windowPos 800 600 = 0 ∧
          isInTitlebarArea fullBuild sampleHelper childWorld (leftAt 400 10).screenPos
            (leftAt 400 10).windowPos (some 1) = true) := by
  decide

/-- The press dispatch at `(400, 10)` of the sample window starts a move. -/
theorem press_dispatch_witness :
    isWindowTopLevel fullBuild sampleWorld (some 1) = true ∧
    (getWindowHandle fullBuild sampleWorld (some 1)).1 = some sampleWindow ∧
    Effect.startSystemMove 1 ∈
      (eventFilter fullBuild sampleHelper sampleWorld (some 1)
        (QEvent.MouseButtonPress (leftAt 400 10))).2 :=
  ⟨by decide, by decide,
    ((press_dispatch fullBuild sampleHelper sampleWorld 1 sampleWindow (leftAt 400 10)
      (by decide) (by decide) rfl).1).mpr (by decide)⟩


theorem onMouseButtonDblClick_quiet (cfg : BuildConfig) (self : FramelessHelper) (W : World)
    (object : Nat) (e : QMouseEvent) :
    ∀ eff ∈ onMouseButtonDblClick cfg self W object e,
      eff.isMove = false ∧ eff.isResize = false := by
  have hall : (onMouseButtonDblClick cfg self W object e).all
      (fun eff => !eff.isMove && !eff.isResize) = true := by
    unfold onMouseButtonDblClick
    generalize W.objects object = o
    rcases o with _ | d | d | d | _ <;> simp only [] <;> split_ifs <;> rfl
  intro eff heff
  have := List.all_eq_true.mp hall eff heff
  simpa using this

theorem onMouseMove_quiet (cfg : BuildConfig) (self : FramelessHelper) (W : World)
    (object : Nat) (e : QMouseEvent) :
    ∀ eff ∈ onMouseMove cfg self W object e,
      eff.isMove = false ∧ eff.isResize = false := by
  have hq := getWindowHandle_log_quiet cfg W (some object)
  unfold onMouseMove
  rcases hgw : getWindowHandle cfg W (some object) with ⟨hd, log⟩
  rw [hgw] at hq
  simp only at hq
  intro eff heff
  cases hd with
  | some window =>
    simp only at heff
    split_ifs at heff
    · simp only [List.mem_append, List.mem_singleton] at heff
      rcases heff with h | h
      · exact hq eff h
      · subst h; exact ⟨rfl, rfl⟩
    · exact hq eff heff
  | none =>
    simp only at heff
    split_ifs at heff
    · split at heff
      · split_ifs at heff
        · simp only [List.mem_append, List.mem_singleton] at heff
          rcases heff with h | h
          · exact hq eff h
          · subst h; exact ⟨rfl, rfl⟩
        · exact hq eff heff
      · exact hq eff heff
    · exact hq eff heff

theorem mem_eventFilter (cfg : BuildConfig) (self : FramelessHelper) (W : World)
    (object : Option Nat) (event : QEvent) (eff : Effect)
    (heff : eff ∈ (eventFilter cfg self W object event).2) :
    ∃ obj, object = some obj ∧ isWindowTopLevel cfg W (some obj) = true ∧
      ((∃ e, event = QEvent.MouseButtonDblClick e ∧
          eff ∈ onMouseButtonDblClick cfg self W obj e) ∨
        (∃ e, event = QEvent.MouseButtonPress e ∧ e.button = MouseButton.LeftButton ∧
          eff ∈ moveOrResize cfg self W e.screenPos e.windowPos obj) ∨
        (∃ e, event = QEvent.MouseMove e ∧ eff ∈ onMouseMove cfg self W obj e) ∨
        (∃ tp others,
          (event = QEvent.TouchBegin tp others ∨ event = QEvent.TouchUpdate tp others) ∧
            eff ∈ moveOrResize cfg self W tp.screenPos tp.pos obj)) := by
  cases object with
  | none => simp [eventFilter] at heff
  | some obj =>
    refine ⟨obj, rfl, ?_⟩
    simp only [eventFilter] at heff
    by_cases htop : isWindowTopLevel cfg W (some obj) = true
    · refine ⟨htop, ?_⟩
      simp only [htop, Bool.not_true, Bool.false_eq_true, if_false] at heff
      cases event with
      | MouseButtonDblClick e => exact Or.inl ⟨e, rfl, heff⟩
      | MouseButtonPress e =>
        simp only [onMouseButtonPress] at heff
        by_cases hb : e.button = MouseButton.LeftButton
        · simp only [hb, ne_eq, not_true_eq_false, if_false] at heff
          exact Or.inr (Or.inl ⟨e, rfl, hb, heff⟩)
        · simp [hb] at heff
      | MouseMove e => exact Or.inr (Or.inr (Or.inl ⟨e, rfl, heff⟩))
      | TouchBegin tp others => exact Or.inr (Or.inr (Or.inr ⟨tp, others, Or.inl rfl, heff⟩))
      | TouchUpdate tp others => exact Or.inr (Or.inr (Or.inr ⟨tp, others, Or.inr rfl, heff⟩))
      | Other t => simp at heff
    · simp [htop] at heff

/-- C4: whatever the event, the point and the configuration are, no system
resize is started when the state of the target's window handle (the state the
dispatch reads) is anything other than `WindowNoState`. -/
theorem no_resize_unless_normal (cfg : BuildConfig) (self : FramelessHelper) (W : World)
    (object : Option Nat) (event : QEvent)
    (hstate : ∀ window, (getWindowHandle cfg W object).1 = some window →
      window.windowStates ≠ Qt.WindowNoState) :
    ∀ eff ∈ (eventFilter cfg self W object event).2, eff.isResize = false := by
  have key : ∀ g p obj, object = some obj →
      ∀ eff ∈ moveOrResize cfg self W g p obj, eff.isResize = false := by
    intro g p obj hobj eff heff
    subst hobj
    cases hgw : (getWindowHandle cfg W (some obj)).1 with
    | none => exact (moveOrResize_none cfg self W g p obj hgw eff heff).2
    | some window =>
      have hs := hstate window hgw
      rw [moveOrResize_eq cfg self W g p obj window hgw] at heff
      have hns : testFlag window.windowStates Qt.WindowNoState = false := by
        cases hb : testFlag window.windowStates Qt.WindowNoState
        · rfl
        · exact absurd ((testFlag_noState _).mp hb) hs
      rw [hns] at heff
      split_ifs at heff <;> simp_all [Effect.isResize]
  intro eff heff
  obtain ⟨obj, hobj, -, h | h | h | h⟩ := mem_eventFilter cfg self W object event eff heff
  · obtain ⟨e, -, he⟩ := h
    exact (onMouseButtonDblClick_quiet cfg self W obj e eff he).2
  · obtain ⟨e, -, -, he⟩ := h
    exact key _ _ obj hobj eff he
  · obtain ⟨e, -, he⟩ := h
    exact (onMouseMove_quiet cfg self W obj e eff he).2
  · obtain ⟨tp, others, -, he⟩ := h
    exact key _ _ obj hobj eff he

/-- A press on the left border of the maximized sample window starts no
resize. -/
theorem no_resize_unless_normal_witness :
    (∀ window, (getWindowHandle fullBuild maximizedWorld (some 1)).1 = some window →
      window.windowStates ≠ Qt.WindowNoState) ∧
    ∀ eff ∈ (eventFilter fullBuild sampleHelper maximizedWorld (some 1)
      (QEvent.MouseButtonPress (leftAt 4 300))).2, eff.isResize = false :=
  ⟨by intro window hw; simp [getWindowHandle, maximizedWorld, validWindow, sampleWindow] at hw
      subst hw; decide,
    no_resize_unless_normal fullBuild sampleHelper maximizedWorld (some 1)
      (QEvent.MouseButtonPress (leftAt 4 300))
      (by intro window hw; simp [getWindowHandle, maximizedWorld, validWindow, sampleWindow] at hw
          subst hw; decide)⟩

theorem isInSpecificAreas_eq_true (x y : Int) (areas : List QRect) :
    isInSpecificAreas x y areas = true ↔ ∃ r ∈ areas, r.contains x y = true := by
  simp [isInSpecificAreas]

theorem isInSpecificObjects_eq_true (cfg : BuildConfig) (W : World) (x y : Int)
    (objects : List Nat) :
    isInSpecificObjects cfg W x y objects = true ↔
      ∃ o ∈ objects, objectContains cfg W x y o = true := by
  simp [isInSpecificObjects]

theorem objectContains_bare (cfg : BuildConfig) (W : World) (x y : Int) (o : Nat)
    (h : (cfg.widgetsLib || cfg.quickLib) = false) : objectContains cfg W x y o = false := by
  simp only [Bool.or_eq_false_iff] at h
  unfold objectContains
  split <;> simp [h.1, h.2]

/-- C3: for a non-null window, `isInTitlebarArea` holds iff `p.y` is at most the
title-bar height, `p` passes the draggable-areas test, `g` passes the
draggable-objects test, resize is permitted at `(g, p)` and the title bar is
enabled; `isResizePermitted` holds iff no ignore area of the window contains
`p` and no live ignore object of the window contains `g` (both taken at the
coordinates truncated to `int`, as the code passes them).  For a null window
both are false. -/
theorem titlebar_and_permission (cfg : BuildConfig) (self : FramelessHelper) (W : World)
    (g p : QPointF) (w : Nat) :
    (isInTitlebarArea cfg self W g p (some w) = true ↔
      p.y ≤ (self.m_titleBarHeight : ℚ) ∧
        isInDraggableAreas self p (some w) = true ∧
        isInDraggableObjects cfg self W g (some w) = true ∧
        isResizePermitted cfg self W g p (some w) = true ∧
        getTitleBarEnabled self (some w) = true) ∧
    (isResizePermitted cfg self W g p (some w) = true ↔
      (∀ r ∈ getIgnoreAreas self (some w), r.contains (toInt p.x) (toInt p.y) = false) ∧
        ∀ o ∈ getIgnoreObjects self W (some w),
          objectContains cfg W (toInt g.x) (toInt g.y) o = false) ∧
    isInTitlebarArea cfg self W g p none = false ∧
    isResizePermitted cfg self W g p none = false := by
  refine ⟨?_, ?_, rfl, rfl⟩
  · simp [isInTitlebarArea, and_assoc]
  · simp only [isResizePermitted, isInIgnoreAreas, isInIgnoreObjects, Bool.and_eq_true,
      Bool.not_eq_true', ← Bool.not_eq_true, isInSpecificAreas_eq_true]
    by_cases hc : (cfg.widgetsLib || cfg.quickLib) = true
    · simp only [hc, if_true, isInSpecificObjects_eq_true]
      simp
    · have hc' : (cfg.widgetsLib || cfg.quickLib) = false := by simpa using hc
      simp only [hc', Bool.false_eq_true, if_false, not_false_eq_true, and_true]
      constructor
      · intro h
        refine ⟨by simpa using h, ?_⟩
        intro o _
        simpa using objectContains_bare cfg W _ _ o hc'
      · intro h
        simpa using h.1

theorem ignoreArea_blocks (cfg : BuildConfig) (self : FramelessHelper) (W : World)
    (g p : QPointF) (object : Option Nat)
    (h : ∃ r ∈ getIgnoreAreas self object, r.contains (toInt p.x) (toInt p.y) = true) :
    isResizePermitted cfg self W g p object = false ∧
      isInTitlebarArea cfg self W g p object = false := by
  cases object with
  | none => exact ⟨rfl, rfl⟩
  | some w =>
    have h1 : isInIgnoreAreas self p (some w) = true := by
      simp only [isInIgnoreAreas]
      exact (isInSpecificAreas_eq_true _ _ _).mpr h
    have h2 : isResizePermitted cfg self W g p (some w) = false := by
      simp [isResizePermitted, h1]
    exact ⟨h2, by simp [isInTitlebarArea, h2]⟩

theorem moveOrResize_quiet_of_blocked (cfg : BuildConfig) (self : FramelessHelper) (W : World)
    (g p : QPointF) (obj : Nat)
    (h1 : isResizePermitted cfg self W g p (some obj) = false)
    (h2 : isInTitlebarArea cfg self W g p (some obj) = false) :
    ∀ eff ∈ moveOrResize cfg self W g p obj, eff.isMove = false ∧ eff.isResize = false := by
  intro eff heff
  cases hgw : (getWindowHandle cfg W (some obj)).1 with
  | none => exact moveOrResize_none cfg self W g p obj hgw eff heff
  | some window =>
    rw [moveOrResize_eq cfg self W g p obj window hgw, h1, h2] at heff
    simp at heff

/-- C7: when the window-local point of a primary-button press, of a touch begin
or of a touch update lies in one of the target's ignore rectangles (the test
`QRect::contains` at the truncated coordinates, as the code performs it),
neither a system move nor a system resize is started; a primary double-click
there makes no toolkit call and leaves the object graph as it is. -/
theorem ignore_area_suppresses (cfg : BuildConfig) (self : FramelessHelper) (W : World)
    (object : Option Nat) (g p : QPointF)
    (hin : ∃ r ∈ getIgnoreAreas self object, r.contains (toInt p.x) (toInt p.y) = true) :
    (∀ buttons, ∀ eff ∈ (eventFilter cfg self W object (QEvent.MouseButtonPress
        { button := MouseButton.LeftButton, buttons := buttons, screenPos := g,
          windowPos := p })).2, eff.isMove = false ∧ eff.isResize = false) ∧
    (∀ others, ∀ eff ∈ (eventFilter cfg self W object
        (QEvent.TouchBegin { screenPos := g, pos := p } others)).2,
        eff.isMove = false ∧ eff.isResize = false) ∧
    (∀ others, ∀ eff ∈ (eventFilter cfg self W object
        (QEvent.TouchUpdate { screenPos := g, pos := p } others)).2,
        eff.isMove = false ∧ eff.isResize = false) ∧
    (∀ buttons,
      (eventFilter cfg self W object (QEvent.MouseButtonDblClick
        { button := MouseButton.LeftButton, buttons := buttons, screenPos := g,
          windowPos := p })).2 = [] ∧
      eventFilterRun cfg self W object (QEvent.MouseButtonDblClick
        { button := MouseButton.LeftButton, buttons := buttons, screenPos := g,
          windowPos := p }) = W) := by
  obtain ⟨h1, h2⟩ := ignoreArea_blocks cfg self W g p object hin
  have hdbl : ∀ buttons, (eventFilter cfg self W object (QEvent.MouseButtonDblClick
        { button := MouseButton.LeftButton, buttons := buttons, screenPos := g,
          windowPos := p })).2 = [] := by
    intro buttons
    cases object with
    | none => rfl
    | some obj =>
      simp only [eventFilter]
      split_ifs
      · rfl
      · simp [onMouseButtonDblClick, h2]
  refine ⟨?_, ?_, ?_, ?_⟩
  · intro buttons eff heff
    obtain ⟨obj, hobj, -, h | h | h | h⟩ := mem_eventFilter cfg self W object _ eff heff
    · obtain ⟨e, he, -⟩ := h; cases he
    · obtain ⟨e, he, -, hm⟩ := h
      cases he; subst hobj
      exact moveOrResize_quiet_of_blocked cfg self W g p obj h1 h2 eff hm
    · obtain ⟨e, he, -⟩ := h; cases he
    · obtain ⟨tp, others, he | he, -⟩ := h <;> cases he
  · intro others eff heff
    obtain ⟨obj, hobj, -, h | h | h | h⟩ := mem_eventFilter cfg self W object _ eff heff
    · obtain ⟨e, he, -⟩ := h; cases he
    · obtain ⟨e, he, -, hm⟩ := h; cases he
    · obtain ⟨e, he, -⟩ := h; cases he
    · obtain ⟨tp, others, he | he, hm⟩ := h <;> cases he
      subst hobj
      exact moveOrResize_quiet_of_blocked cfg self W g p obj h1 h2 eff hm
  · intro others eff heff
    obtain ⟨obj, hobj, -, h | h | h | h⟩ := mem_eventFilter cfg self W object _ eff heff
    · obtain ⟨e, he, -⟩ := h; cases he
    · obtain ⟨e, he, -, hm⟩ := h; cases he
    · obtain ⟨e, he, -⟩ := h; cases he
    · obtain ⟨tp, others, he | he, hm⟩ := h <;> cases he
      subst hobj
      exact moveOrResize_quiet_of_blocked cfg self W g p obj h1 h2 eff hm
  · intro buttons
    refine ⟨hdbl buttons, ?_⟩
    simp only [eventFilterRun, hdbl buttons, List.foldl_nil]

theorem testFlag_single (s k : Nat) : testFlag s (2 ^ k) = (s &&& 2 ^ k != 0) := by
  unfold testFlag
  rw [Nat.and_two_pow]
  have hp : 0 < 2 ^ k := Nat.two_pow_pos k
  have hne : 2 ^ k ≠ 0 := Nat.ne_of_gt hp
  cases s.testBit k
  · simp [hne, hne.symm]
  · simp [hne]

theorem testFlag_fullScreen (s : Nat) :
    testFlag s Qt.WindowFullScreen = (s &&& Qt.WindowFullScreen != 0) :=
  testFlag_single s 2

theorem testFlag_maximized (s : Nat) :
    testFlag s Qt.WindowMaximized = (s &&& Qt.WindowMaximized != 0) :=
  testFlag_single s 1

theorem mask_clear (s m : Nat) : (s ^^^ (s &&& m)) &&& m = 0 := by
  apply Nat.eq_of_testBit_eq
  intro i
  simp only [Nat.testBit_and, Nat.testBit_xor, Nat.zero_testBit]
  generalize s.testBit i = a
  generalize m.testBit i = b
  cases a <;> cases b <;> rfl

theorem mask_clear_set (s m k : Nat) : ((s ^^^ (s &&& m)) ||| k) &&& (m ||| k) = k := by
  apply Nat.eq_of_testBit_eq
  intro i
  simp only [Nat.testBit_and, Nat.testBit_xor, Nat.testBit_or]
  generalize s.testBit i = a
  generalize m.testBit i = b
  generalize k.testBit i = c
  cases a <;> cases b <;> cases c <;> rfl

theorem widgetNormalState_special (s : Nat) : widgetNormalState s &&& specialStates = 0 :=
  mask_clear s specialStates

theorem widgetMaximizedState_special (s : Nat) :
    widgetMaximizedState s &&& specialStates = Qt.WindowMaximized :=
  mask_clear_set s (Qt.WindowMinimized ||| Qt.WindowFullScreen) Qt.WindowMaximized

theorem stateOf_of_topLevel (cfg : BuildConfig) (W : World) (object : Nat)
    (htop : isWindowTopLevel cfg W (some object) = true) :
    ∃ s, stateOf W object = some s := by
  simp only [isWindowTopLevel] at htop
  unfold stateOf
  split at htop
  · exact ⟨_, rfl⟩
  · exact ⟨_, rfl⟩
  · simp at htop

theorem dblclick_outside (cfg : BuildConfig) (self : FramelessHelper) (W : World)
    (object : Option Nat) (e : QMouseEvent)
    (h : e.button ≠ MouseButton.LeftButton ∨
      isInTitlebarArea cfg self W e.screenPos e.windowPos object = false) :
    (eventFilter cfg self W object (QEvent.MouseButtonDblClick e)).2 = [] := by
  cases object with
  | none => rfl
  | some obj =>
    simp only [eventFilter]
    split_ifs
    · rfl
    · rcases h with h | h
      · simp [onMouseButtonDblClick, h]
      · simp [onMouseButtonDblClick, h]

theorem dblclick_result (cfg : BuildConfig) (self : FramelessHelper) (W : World)
    (object : Nat) (e : QMouseEvent) (s : Nat)
    (htop : isWindowTopLevel cfg W (some object) = true)
    (hs : stateOf W object = some s)
    (hb : e.button = MouseButton.LeftButton)
    (ht : isInTitlebarArea cfg self W e.screenPos e.windowPos (some object) = true) :
    (s &&& Qt.WindowFullScreen ≠ 0 →
      (eventFilter cfg self W (some object) (QEvent.MouseButtonDblClick e)).2 = []) ∧
    (s &&& Qt.WindowFullScreen = 0 →
      isWindowTopLevel cfg
        (eventFilterRun cfg self W (some object) (QEvent.MouseButtonDblClick e))
        (some object) = true ∧
      cursorOf (eventFilterRun cfg self W (some object) (QEvent.MouseButtonDblClick e))
        object = some CursorShape.ArrowCursor ∧
      ∃ s', stateOf (eventFilterRun cfg self W (some object) (QEvent.MouseButtonDblClick e))
          object = some s' ∧
        (s &&& Qt.WindowMaximized ≠ 0 → s' &&& specialStates = Qt.WindowNoState) ∧
        (s &&& Qt.WindowMaximized = 0 → s' &&& specialStates = Qt.WindowMaximized) ∧
        (s = Qt.WindowNoState → s' = Qt.WindowMaximized) ∧
        (s = Qt.WindowMaximized → s' = Qt.WindowNoState)) := by
  have heff : (eventFilter cfg self W (some object) (QEvent.MouseButtonDblClick e)).2 =
      onMouseButtonDblClick cfg self W object e := by
    simp [eventFilter, htop]
  simp only [eventFilterRun, heff]
  simp only [onMouseButtonDblClick, hb, ht, ne_eq, not_true_eq_false, if_false, if_true]
  simp only [isWindowTopLevel] at htop
  cases hW : W.objects object with
  | none => simp [hW] at htop
  | some o =>
    cases o with
    | Window d =>
      simp only [hW] at htop
      have hsd : d.windowStates = s := by simpa [stateOf, hW] using hs
      simp only [testFlag_fullScreen, testFlag_maximized, hsd]
      constructor
      · intro hfs
        simp [hfs]
      · intro hfs
        by_cases hm : s &&& Qt.WindowMaximized = 0
        · simp [hfs, hm, applyEffect, hW, World.set, isWindowTopLevel, cursorOf, stateOf, htop]
          refine ⟨by decide, ?_⟩
          rintro rfl
          exact absurd hm (by decide)
        · simp [hfs, hm, applyEffect, hW, World.set, isWindowTopLevel, cursorOf, stateOf, htop]
          rintro rfl
          exact absurd rfl hm
    | Widget d =>
      simp only [hW, Bool.and_eq_true] at htop
      have hsd : d.windowState = s := by simpa [stateOf, hW] using hs
      simp only [htop.1, if_true, QWidgetData.isFullScreen, QWidgetData.isMaximized, hsd]
      constructor
      · intro hfs
        simp [hfs]
      · intro hfs
        by_cases hm : s &&& Qt.WindowMaximized = 0
        · simp [hfs, hm, applyEffect, hW, World.set, isWindowTopLevel, cursorOf, stateOf, htop,
            hsd, widgetMaximizedState_special]
          refine ⟨?_, ?_⟩
          · rintro rfl
            decide
          · rintro rfl
            exact absurd hm (by decide)
        · simp [hfs, hm, applyEffect, hW, World.set, isWindowTopLevel, cursorOf, stateOf, htop,
            hsd, widgetNormalState_special]
          refine ⟨?_, ?_⟩
          · rintro rfl
            exact absurd rfl hm
          · rintro rfl
            decide
    | QuickItem d => simp [hW] at htop
    | Plain => simp [hW] at htop

/-- C8 (as amended): for a top-level window or widget target with state mask
`s` and a double-click `e`: if `e` is a primary-button double-click in the
title-bar area, a fullscreen target is left unchanged, a maximized one ends in
the normal state and a non-maximized one ends maximized, both with the arrow
cursor; from the normal state one such double-click yields exactly the
maximized state and a second one the normal state again.  A double-click with
another button, or outside the title-bar area, changes nothing. -/
theorem dblclick_toggles (cfg : BuildConfig) (self : FramelessHelper) (W : World)
    (object : Nat) (e : QMouseEvent) (s : Nat)
    (htop : isWindowTopLevel cfg W (some object) = true)
    (hs : stateOf W object = some s) :
    (e.button = MouseButton.LeftButton →
      isInTitlebarArea cfg self W e.screenPos e.windowPos (some object) = true →
      s &&& Qt.WindowFullScreen ≠ 0 →
      (eventFilter cfg self W (some object) (QEvent.MouseButtonDblClick e)).2 = [] ∧
        eventFilterRun cfg self W (some object) (QEvent.MouseButtonDblClick e) = W) ∧
    (e.button = MouseButton.LeftButton →
      isInTitlebarArea cfg self W e.screenPos e.windowPos (some object) = true →
      s &&& Qt.WindowFullScreen = 0 → s &&& Qt.WindowMaximized ≠ 0 →
      (∃ s', stateOf (eventFilterRun cfg self W (some object) (QEvent.MouseButtonDblClick e))
          object = some s' ∧ s' &&& specialStates = Qt.WindowNoState) ∧
        cursorOf (eventFilterRun cfg self W (some object) (QEvent.MouseButtonDblClick e))
          object = some CursorShape.ArrowCursor) ∧
    (e.button = MouseButton.LeftButton →
      isInTitlebarArea cfg self W e.screenPos e.windowPos (some object) = true →
      s &&& Qt.WindowFullScreen = 0 → s &&& Qt.WindowMaximized = 0 →
      (∃ s', stateOf (eventFilterRun cfg self W (some object) (QEvent.MouseButtonDblClick e))
          object = some s' ∧ s' &&& specialStates = Qt.WindowMaximized) ∧
        cursorOf (eventFilterRun cfg self W (some object) (QEvent.MouseButtonDblClick e))
          object = some CursorShape.ArrowCursor) ∧
    (e.button = MouseButton.LeftButton →
      isInTitlebarArea cfg self W e.screenPos e.windowPos (some object) = true →
      s = Qt.WindowNoState →
      stateOf (eventFilterRun cfg self W (some object) (QEvent.MouseButtonDblClick e))
          object = some Qt.WindowMaximized ∧
        ∀ e2 : QMouseEvent, e2.button = MouseButton.LeftButton →
          isInTitlebarArea cfg self
            (eventFilterRun cfg self W (some object) (QEvent.MouseButtonDblClick e))
            e2.screenPos e2.windowPos (some object) = true →
          stateOf
            (eventFilterRun cfg self
              (eventFilterRun cfg self W (some object) (QEvent.MouseButtonDblClick e))
              (some object) (QEvent.MouseButtonDblClick e2))
            object = some Qt.WindowNoState) ∧
    ((e.button ≠ MouseButton.LeftButton ∨
        isInTitlebarArea cfg self W e.screenPos e.windowPos (some object) = false) →
      (eventFilter cfg self W (some object) (QEvent.MouseButtonDblClick e)).2 = [] ∧
        eventFilterRun cfg self W (some object) (QEvent.MouseButtonDblClick e) = W) := by
  refine ⟨?_, ?_, ?_, ?_, ?_⟩
  · intro hb ht hfs
    have h := (dblclick_result cfg self W object e s htop hs hb ht).1 hfs
    exact ⟨h, by simp only [eventFilterRun, h, List.foldl_nil]⟩
  · intro hb ht hfs hm
    obtain ⟨-, hc, s', h1, h2, -, -, -⟩ :=
      (dblclick_result cfg self W object e s htop hs hb ht).2 hfs
    exact ⟨⟨s', h1, h2 hm⟩, hc⟩
  · intro hb ht hfs hm
    obtain ⟨-, hc, s', h1, -, h3, -, -⟩ :=
      (dblclick_result cfg self W object e s htop hs hb ht).2 hfs
    exact ⟨⟨s', h1, h3 hm⟩, hc⟩
  · intro hb ht h0
    have hfs : s &&& Qt.WindowFullScreen = 0 := by subst h0; decide
    obtain ⟨htop', -, s', h1, -, -, h4, -⟩ :=
      (dblclick_result cfg self W object e s htop hs hb ht).2 hfs
    have hs' : s' = Qt.WindowMaximized := h4 h0
    subst hs'
    refine ⟨h1, ?_⟩
    intro e2 hb2 ht2
    obtain ⟨-, -, s2, h1', -, -, -, h5⟩ :=
      (dblclick_result cfg self _ object e2 Qt.WindowMaximized htop' h1 hb2 ht2).2 (by decide)
    rw [h1', h5 rfl]
  · intro h
    have h' := dblclick_outside cfg self W (some object) e h
    exact ⟨h', by simp only [eventFilterRun, h', List.foldl_nil]⟩

/-- C8 as stated fails: a primary double-click in the title-bar area of a child
`QWindow` in the normal state leaves it in the normal state, with its cursor
untouched. -/
theorem dblclick_child_window :
    isInTitlebarArea fullBuild sampleHelper childWorld (leftAt 400 10).screenPos
        (leftAt 400 10).windowPos (some 1) = true ∧
      stateOf childWorld 1 = some Qt.WindowNoState ∧
      stateOf (eventFilterRun fullBuild sampleHelper childWorld (some 1)
        (QEvent.MouseButtonDblClick (leftAt 400 10))) 1 = some Qt.WindowNoState ∧
      cursorOf (eventFilterRun fullBuild sampleHelper childWorld (some 1)
        (QEvent.MouseButtonDblClick (leftAt 400 10))) 1 = some (CursorShape.OtherCursor 0) := by
  decide

/-- A double-click at `(400, 10)` maximizes the sample window. -/
theorem dblclick_toggles_witness :
    isWindowTopLevel fullBuild sampleWorld (some 1) = true ∧
    stateOf sampleWorld 1 = some Qt.WindowNoState ∧
    stateOf (eventFilterRun fullBuild sampleHelper sampleWorld (some 1)
      (QEvent.MouseButtonDblClick (leftAt 400 10))) 1 = some Qt.WindowMaximized :=
  ⟨by decide, by decide,
    ((dblclick_toggles fullBuild sampleHelper sampleWorld 1 (leftAt 400 10) Qt.WindowNoState
      (by decide) (by decide)).2.2.2.1 rfl (by decide) rfl).1⟩

/-- A double-click at `(4, 4)`, inside the ignore area of `ignoreHelper`, makes
no toolkit call. -/
theorem ignore_area_suppresses_witness :
    (∃ r ∈ getIgnoreAreas ignoreHelper (some 1),
      r.contains (toInt (4 : ℚ)) (toInt (4 : ℚ)) = true) ∧
    (eventFilter fullBuild ignoreHelper sampleWorld (some 1)
      (QEvent.MouseButtonDblClick
        { button := MouseButton.LeftButton, buttons := 1, screenPos := { x := 104, y := 104 },
          windowPos := { x := 4, y := 4 } })).2 = [] :=
  ⟨⟨QRect.ofXYWH 0 0 100 30, by decide, by decide⟩,
    ((ignore_area_suppresses fullBuild ignoreHelper sampleWorld (some 1)
      { x := 104, y := 104 } { x := 4, y := 4 }
      ⟨QRect.ofXYWH 0 0 100 30, by decide, by decide⟩).2.2.2 1).1⟩

theorem QHash.value_assign_self {V : Type} (m : QHash V) (k : Nat) (v dflt : V) :
    (m.assign k v).value k dflt = v := by
  simp [QHash.value, QHash.assign, List.lookup]

theorem mem_filterMap_data (W : World) (l : List QPointer) (o : Nat) :
    o ∈ l.filterMap (QPointer.data W) ↔ some o ∈ l ∧ (W.objects o).isSome = true := by
  simp only [List.mem_filterMap]
  constructor
  · rintro ⟨p, hp, hd⟩
    cases p with
    | none => simp [QPointer.data] at hd
    | some id =>
      simp only [QPointer.data] at hd
      split_ifs at hd with hl
      · cases hd
        exact ⟨hp, hl⟩
  · rintro ⟨hp, hl⟩
    exact ⟨some o, hp, by simp [QPointer.data, hl]⟩

/-- C9 (as amended): for a non-null window the draggable-objects test is true
when nothing is configured, when no configured entry is live, and in a build
without widget and quick-item support; in a build with such support and with
at least one live configured entry it is true iff the bounds of some live
configured object contain the global point.  The objects the test looks at are
exactly the live configured ones: expired entries are skipped. -/
theorem draggable_objects_test (cfg : BuildConfig) (self : FramelessHelper) (W : World)
    (g : QPointF) (w : Nat) :
    (self.m_draggableObjects.value w [] = [] →
      isInDraggableObjects cfg self W g (some w) = true) ∧
    (getDraggableObjects self W (some w) = [] →
      isInDraggableObjects cfg self W g (some w) = true) ∧
    ((cfg.widgetsLib || cfg.quickLib) = false →
      isInDraggableObjects cfg self W g (some w) = true) ∧
    ((cfg.widgetsLib || cfg.quickLib) = true →
      getDraggableObjects self W (some w) ≠ [] →
      (isInDraggableObjects cfg self W g (some w) = true ↔
        ∃ o, some o ∈ self.m_draggableObjects.value w [] ∧ (W.objects o).isSome = true ∧
          objectContains cfg W (toInt g.x) (toInt g.y) o = true)) ∧
    (∀ o, o ∈ getDraggableObjects self W (some w) ↔
      some o ∈ self.m_draggableObjects.value w [] ∧ (W.objects o).isSome = true) := by
  have hmem : ∀ o, o ∈ getDraggableObjects self W (some w) ↔
      some o ∈ self.m_draggableObjects.value w [] ∧ (W.objects o).isSome = true := by
    intro o
    simp only [getDraggableObjects]
    exact mem_filterMap_data W _ o
  have hlive : getDraggableObjects self W (some w) = [] →
      isInDraggableObjects cfg self W g (some w) = true := by
    intro h
    simp only [isInDraggableObjects, h, List.isEmpty_nil, if_true]
    split_ifs <;> rfl
  refine ⟨?_, hlive, ?_, ?_, hmem⟩
  · intro h
    apply hlive
    simp [getDraggableObjects, h]
  · intro h
    simp [isInDraggableObjects, h]
  · intro hc hne
    have hemp : (getDraggableObjects self W (some w)).isEmpty = false := by
      cases hl : getDraggableObjects self W (some w) with
      | nil => exact absurd hl hne
      | cons a l => rfl
    simp only [isInDraggableObjects, hc, if_true, hemp, Bool.false_eq_true, if_false,
      isInSpecificObjects_eq_true]
    constructor
    · rintro ⟨o, ho, hcont⟩
      exact ⟨o, ((hmem o).mp ho).1, ((hmem o).mp ho).2, hcont⟩
    · rintro ⟨o, h1, h2, hcont⟩
      exact ⟨o, (hmem o).mpr ⟨h1, h2⟩, hcont⟩

/-- C9 as stated fails: with the non-empty configured sequence `[2]` and object
2 destroyed, the test is true at `(5000, 5000)` although no configured object
is live; and in a build without widget and quick-item support the test is true
there although the only configured object does not contain the point. -/
theorem draggable_objects_expired :
    (draggableHelper.m_draggableObjects.value 1 [] = [some 2] ∧
      (∀ p ∈ draggableHelper.m_draggableObjects.value 1 [],
        QPointer.data (widgetWorld.destroy 2) p = none) ∧
      isInDraggableObjects fullBuild draggableHelper (widgetWorld.destroy 2)
        { x := 5000, y := 5000 } (some 1) = true) ∧
    (plainDraggableHelper.m_draggableObjects.value 1 [] = [some 3] ∧
      getDraggableObjects plainDraggableHelper widgetWorld (some 1) = [3] ∧
      objectContains bareBuild widgetWorld 5000 5000 3 = false ∧
      isInDraggableObjects bareBuild plainDraggableHelper widgetWorld
        { x := 5000, y := 5000 } (some 1) = true) := by
  decide

/-- With the live 100x30 widget configured, the test fails at `(5000, 5000)`. -/
theorem draggable_objects_test_witness :
    (fullBuild.widgetsLib || fullBuild.quickLib) = true ∧
    getDraggableObjects draggableHelper widgetWorld (some 1) ≠ [] ∧
    isInDraggableObjects fullBuild draggableHelper widgetWorld
      { x := 5000, y := 5000 } (some 1) = false :=
  ⟨by decide, by decide, by
    have h := (draggable_objects_test fullBuild draggableHelper widgetWorld
      { x := 5000, y := 5000 } 1).2.2.2.1 (by decide) (by decide)
    cases hb : isInDraggableObjects fullBuild draggableHelper widgetWorld
      { x := 5000, y := 5000 } (some 1)
    · rfl
    · obtain ⟨o, ho, -, hcont⟩ := h.mp hb
      have ho2 : o = 2 := by
        have : draggableHelper.m_draggableObjects.value 1 [] = [some 2] := by decide
        rw [this] at ho
        simpa using ho
      subst ho2
      exact absurd hcont (by decide)⟩

/-- C10: after `addIgnoreObject(w, o)` and the destruction of `o`,
`getIgnoreObjects(w)` does not contain `o`, it is the sequence it would be
without the addition, and the ignore-objects test gives at every point the
result it would give without the addition. -/
theorem ignore_object_expiry (cfg : BuildConfig) (self : FramelessHelper) (W : World)
    (w : Option Nat) (o : Nat) :
    o ∉ getIgnoreObjects (addIgnoreObject self w (some o)) (W.destroy o) w ∧
    getIgnoreObjects (addIgnoreObject self w (some o)) (W.destroy o) w =
      getIgnoreObjects self (W.destroy o) w ∧
    ∀ p, isInIgnoreObjects cfg (addIgnoreObject self w (some o)) (W.destroy o) p w =
      isInIgnoreObjects cfg self (W.destroy o) p w := by
  have hdead : QPointer.data (W.destroy o) (some o) = none := by
    simp [QPointer.data, World.destroy]
  have heq : getIgnoreObjects (addIgnoreObject self w (some o)) (W.destroy o) w =
      getIgnoreObjects self (W.destroy o) w := by
    cases w with
    | none => rfl
    | some k =>
      simp only [getIgnoreObjects, addIgnoreObject, QHash.value_assign_self,
        List.filterMap_append, List.filterMap_cons, hdead, List.filterMap_nil,
        List.append_nil]
  refine ⟨?_, heq, ?_⟩
  · rw [heq]
    cases w with
    | none => simp [getIgnoreObjects]
    | some k =>
      simp only [getIgnoreObjects]
      intro h
      have := ((mem_filterMap_data (W.destroy o) _ o).mp h).2
      simp [World.destroy] at this
  · intro p
    simp only [isInIgnoreObjects, heq]

/-! ## Pointer moves -/

theorem eventFilter_move_eq (cfg : BuildConfig) (self : FramelessHelper) (W : World)
    (object : Nat) (e : QMouseEvent)
    (htop : isWindowTopLevel cfg W (some object) = true) :
    (eventFilter cfg self W (some object) (QEvent.MouseMove e)).2 =
      onMouseMove cfg self W object e := by
  simp [eventFilter, htop]

theorem onMouseMove_of_handle (cfg : BuildConfig) (self : FramelessHelper) (W : World)
    (object : Nat) (e : QMouseEvent) (window : QWindowData)
    (h : (getWindowHandle cfg W (some object)).1 = some window) :
    onMouseMove cfg self W object e =
      if window.windowStates = Qt.WindowNoState ∧ getResizable self (some object) = true then
        [Effect.windowSetCursor object
          (getCursorShape (getWindowEdges self e.windowPos window.width window.height))]
      else [] := by
  have hlog := getWindowHandle_some_log cfg W (some object) window h
  unfold onMouseMove
  rcases hgw : getWindowHandle cfg W (some object) with ⟨hd, log⟩
  rw [hgw] at h hlog
  simp only at h hlog
  subst h hlog
  simp only [List.nil_append, Bool.and_eq_true, testFlag_noState]

theorem getWindowHandle_topLevel_log (cfg : BuildConfig) (W : World) (object : Nat)
    (htop : isWindowTopLevel cfg W (some object) = true) :
    (getWindowHandle cfg W (some object)).2 = [] := by
  simp only [isWindowTopLevel] at htop
  simp only [getWindowHandle]
  cases hW : W.objects object with
  | none => simp [hW] at htop
  | some o =>
    cases o with
    | Window d => rfl
    | Widget d =>
      simp only [hW, Bool.and_eq_true] at htop
      simp [htop.1]
    | QuickItem d => simp [hW] at htop
    | Plain => simp [hW] at htop

theorem onMouseMove_of_widget (cfg : BuildConfig) (self : FramelessHelper) (W : World)
    (object : Nat) (e : QMouseEvent) (d : QWidgetData)
    (htop : isWindowTopLevel cfg W (some object) = true)
    (h : (getWindowHandle cfg W (some object)).1 = none)
    (hW : W.objects object = some (QObject.Widget d)) :
    onMouseMove cfg self W object e =
      if d.isMinimized = false ∧ d.isMaximized = false ∧ d.isFullScreen = false ∧
          getResizable self (some object) = true then
        [Effect.widgetSetCursor object
          (getCursorShape (getWindowEdges self e.windowPos d.width d.height))]
      else [] := by
  have hlog := getWindowHandle_topLevel_log cfg W object htop
  have hlib : cfg.widgetsLib = true := by
    simp only [isWindowTopLevel, hW, Bool.and_eq_true] at htop
    exact htop.1
  unfold onMouseMove
  rcases hgw : getWindowHandle cfg W (some object) with ⟨hd, log⟩
  rw [hgw] at h hlog
  simp only at h hlog
  subst h hlog
  simp only [hlib, if_true, hW, List.nil_append, Bool.and_eq_true, Bool.not_eq_true',
    and_assoc]

theorem onMouseMove_of_window_without_handle (cfg : BuildConfig) (self : FramelessHelper)
    (W : World) (object : Nat) (e : QMouseEvent) (d : QWindowData)
    (h : (getWindowHandle cfg W (some object)).1 = none)
    (hW : W.objects object = some (QObject.Window d)) :
    onMouseMove cfg self W object e = [] := by
  have hlog : (getWindowHandle cfg W (some object)).2 = [] := by
    simp [getWindowHandle, hW]
  unfold onMouseMove
  rcases hgw : getWindowHandle cfg W (some object) with ⟨hd, log⟩
  rw [hgw] at h hlog
  simp only at h hlog
  subst h hlog
  simp [hW]

theorem stateOf_applyEffect_setCursor (W : World) (eff : Effect) (id : Nat)
    (h : eff.isSetCursor = true) : stateOf (applyEffect W eff) id = stateOf W id := by
  cases eff with
  | windowSetCursor t shape =>
    simp only [applyEffect]
    cases hW : W.objects t with
    | none => rfl
    | some o =>
      cases o with
      | Window d =>
        simp only [stateOf, World.set]
        by_cases hid : id = t
        · subst hid; simp [hW]
        · simp [hid]
      | Widget d =>
        simp only [stateOf, World.set]
        by_cases hid : id = t
        · subst hid; simp [hW]
        · simp [hid]
      | QuickItem d => rfl
      | Plain => rfl
  | widgetSetCursor t shape =>
    simp only [applyEffect]
    cases hW : W.objects t with
    | none => rfl
    | some o =>
      cases o with
      | Window d => rfl
      | Widget d =>
        simp only [stateOf, World.set]
        by_cases hid : id = t
        · subst hid; simp [hW]
        · simp [hid]
      | QuickItem d => rfl
      | Plain => rfl
  | startSystemMove t => simp [Effect.isSetCursor] at h
  | startSystemResize t ed => simp [Effect.isSetCursor] at h
  | windowShowNormal t => simp [Effect.isSetCursor] at h
  | windowShowMaximized t => simp [Effect.isSetCursor] at h
  | widgetShowNormal t => simp [Effect.isSetCursor] at h
  | widgetShowMaximized t => simp [Effect.isSetCursor] at h
  | qWarning msg => simp [Effect.isSetCursor] at h

theorem onMouseMove_shape (cfg : BuildConfig) (self : FramelessHelper) (W : World)
    (object : Nat) (e : QMouseEvent)
    (htop : isWindowTopLevel cfg W (some object) = true) :
    onMouseMove cfg self W object e = [] ∨
      ∃ eff, onMouseMove cfg self W object e = [eff] ∧ eff.isSetCursor = true := by
  cases hgw : (getWindowHandle cfg W (some object)).1 with
  | some window =>
    rw [onMouseMove_of_handle cfg self W object e window hgw]
    split_ifs
    · exact Or.inr ⟨_, rfl, rfl⟩
    · exact Or.inl rfl
  | none =>
    cases hW : W.objects object with
    | none => simp [isWindowTopLevel, hW] at htop
    | some o =>
      cases o with
      | Window d =>
        exact Or.inl (onMouseMove_of_window_without_handle cfg self W object e d hgw hW)
      | Widget d =>
        rw [onMouseMove_of_widget cfg self W object e d htop hgw hW]
        split_ifs
        · exact Or.inr ⟨_, rfl, rfl⟩
        · exact Or.inl rfl
      | QuickItem d => simp [isWindowTopLevel, hW] at htop
      | Plain => simp [isWindowTopLevel, hW] at htop

/-- C11 (as amended): for a pointer move at `p` on a top-level target.  With a
valid window handle, the cursor of that window is set to
`getCursorShape(getWindowEdges(p, width, height))` when its state is the normal
state and the target is resizable, and no call is made otherwise; for a widget
without a valid window handle the same holds with the widget's own state, size
and cursor; for a window without a valid window handle no call is made.  No
move or resize is started, the window state is unchanged, and without a call
the object graph is unchanged. -/
theorem pointer_move_cursor (cfg : BuildConfig) (self : FramelessHelper) (W : World)
    (object : Nat) (e : QMouseEvent)
    (htop : isWindowTopLevel cfg W (some object) = true) :
    (∀ window, (getWindowHandle cfg W (some object)).1 = some window →
      (eventFilter cfg self W (some object) (QEvent.MouseMove e)).2 =
        if window.windowStates = Qt.WindowNoState ∧ getResizable self (some object) = true then
          [Effect.windowSetCursor object
            (getCursorShape (getWindowEdges self e.windowPos window.width window.height))]
        else []) ∧
    (∀ d, (getWindowHandle cfg W (some object)).1 = none →
      W.objects object = some (QObject.Widget d) →
      (eventFilter cfg self W (some object) (QEvent.MouseMove e)).2 =
        if d.isMinimized = false ∧ d.isMaximized = false ∧ d.isFullScreen = false ∧
            getResizable self (some object) = true then
          [Effect.widgetSetCursor object
            (getCursorShape (getWindowEdges self e.windowPos d.width d.height))]
        else []) ∧
    (∀ d, (getWindowHandle cfg W (some object)).1 = none →
      W.objects object = some (QObject.Window d) →
      (eventFilter cfg self W (some object) (QEvent.MouseMove e)).2 = []) ∧
    (∀ eff ∈ (eventFilter cfg self W (some object) (QEvent.MouseMove e)).2,
      eff.isMove = false ∧ eff.isResize = false) ∧
    stateOf (eventFilterRun cfg self W (some object) (QEvent.MouseMove e)) object =
      stateOf W object ∧
    ((eventFilter cfg self W (some object) (QEvent.MouseMove e)).2 = [] →
      eventFilterRun cfg self W (some object) (QEvent.MouseMove e) = W) := by
  have heq := eventFilter_move_eq cfg self W object e htop
  refine ⟨?_, ?_, ?_, ?_, ?_, ?_⟩
  · intro window h
    rw [heq]
    exact onMouseMove_of_handle cfg self W object e window h
  · intro d h hW
    rw [heq]
    exact onMouseMove_of_widget cfg self W object e d htop h hW
  · intro d h hW
    rw [heq]
    exact onMouseMove_of_window_without_handle cfg self W object e d h hW
  · rw [heq]
    exact onMouseMove_quiet cfg self W object e
  · simp only [eventFilterRun, heq]
    rcases onMouseMove_shape cfg self W object e htop with h | ⟨eff, h, hc⟩
    · rw [h]; rfl
    · rw [h]
      exact stateOf_applyEffect_setCursor W eff object hc
  · intro h
    simp only [eventFilterRun, h, List.foldl_nil]

/-- C11 as stated fails: a top-level window in the normal state, resizable,
but with no platform window: the pointer move to the top-left corner, where
the shape would be the forward diagonal, makes no call and the cursor stays as
it was. -/
theorem pointer_move_without_handle :
    isWindowTopLevel fullBuild handlelessWorld (some 1) = true ∧
    stateOf handlelessWorld 1 = some Qt.WindowNoState ∧
    getResizable sampleHelper (some 1) = true ∧
    getCursorShape (getWindowEdges sampleHelper (leftAt 4 4).windowPos 800 600) =
      CursorShape.SizeFDiagCursor ∧
    (eventFilter fullBuild sampleHelper handlelessWorld (some 1)
      (QEvent.MouseMove (leftAt 4 4))).2 = [] ∧
    cursorOf (eventFilterRun fullBuild sampleHelper handlelessWorld (some 1)
      (QEvent.MouseMove (leftAt 4 4))) 1 = some (CursorShape.OtherCursor 0) := by
  decide

/-- A pointer move to the top-left corner of the sample window sets the
forward-diagonal cursor. -/
theorem pointer_move_cursor_witness :
    isWindowTopLevel fullBuild sampleWorld (some 1) = true ∧
    (getWindowHandle fullBuild sampleWorld (some 1)).1 = some sampleWindow ∧
    (eventFilter fullBuild sampleHelper sampleWorld (some 1)
      (QEvent.MouseMove (leftAt 4 4))).2 =
      [Effect.windowSetCursor 1 CursorShape.SizeFDiagCursor] :=
  ⟨by decide, by decide,
    ((pointer_move_cursor fullBuild sampleHelper sampleWorld 1 (leftAt 4 4)
      (by decide)).1 sampleWindow (by decide)).trans (by decide)⟩

theorem getWindowHandle_log_warnings (cfg : BuildConfig) (W : World) (val : Option Nat) :
    ∀ eff ∈ (getWindowHandle cfg W val).2, eff.isSetCursor = false := by
  unfold getWindowHandle
  split
  · simp
  · split
    · simp
    · split_ifs <;> simp [Effect.isSetCursor]
    · simp [Effect.isSetCursor]

theorem moveOrResize_no_setCursor (cfg : BuildConfig) (self : FramelessHelper) (W : World)
    (g p : QPointF) (object : Nat) :
    ∀ eff ∈ moveOrResize cfg self W g p object, eff.isSetCursor = false := by
  have hq := getWindowHandle_log_warnings cfg W (some object)
  unfold moveOrResize
  rcases hgw : getWindowHandle cfg W (some object) with ⟨hd, log⟩
  rw [hgw] at hq
  simp only at hq
  intro eff heff
  cases hd with
  | some window =>
    simp only at heff
    split_ifs at heff
    · simp only [List.mem_append, List.mem_singleton] at heff
      rcases heff with h | h
      · exact hq eff h
      · subst h; rfl
    · exact hq eff heff
    · simp only [List.mem_append, List.mem_singleton] at heff
      rcases heff with h | h
      · exact hq eff h
      · subst h; rfl
    · exact hq eff heff
  | none =>
    simp only [List.mem_append, List.mem_singleton] at heff
    rcases heff with h | h
    · exact hq eff h
    · subst h; rfl

/-- C20 (as amended): the filter handles a pointer move the same way whatever
button caused it and whatever buttons are held; and apart from pointer moves
the cursor is set only by a primary-button double-click in the title-bar area,
to the arrow. -/
theorem pointer_move_ignores_buttons (cfg : BuildConfig) (self : FramelessHelper) (W : World)
    (object : Option Nat) (e : QMouseEvent) (button : MouseButton) (buttons : Nat) :
    eventFilter cfg self W object
        (QEvent.MouseMove { e with button := button, buttons := buttons }) =
      eventFilter cfg self W object (QEvent.MouseMove e) ∧
    (∀ event, (∀ e2, event ≠ QEvent.MouseMove e2) →
      (∀ e2, event ≠ QEvent.MouseButtonDblClick e2) →
      ∀ eff ∈ (eventFilter cfg self W object event).2, eff.isSetCursor = false) ∧
    (∀ e2, ∀ eff ∈ (eventFilter cfg self W object (QEvent.MouseButtonDblClick e2)).2,
      eff.isSetCursor = true →
      e2.button = MouseButton.LeftButton ∧
        isInTitlebarArea cfg self W e2.screenPos e2.windowPos object = true ∧
        ∃ t, eff = Effect.windowSetCursor t CursorShape.ArrowCursor ∨
          eff = Effect.widgetSetCursor t CursorShape.ArrowCursor) := by
  refine ⟨?_, ?_, ?_⟩
  · cases object with
    | none => rfl
    | some obj => simp only [eventFilter, onMouseMove]
  · intro event hm hd eff heff
    obtain ⟨obj, hobj, -, h | h | h | h⟩ := mem_eventFilter cfg self W object event eff heff
    · obtain ⟨e2, he, -⟩ := h
      exact absurd he (hd e2)
    · obtain ⟨e2, -, -, he⟩ := h
      exact moveOrResize_no_setCursor cfg self W _ _ obj eff he
    · obtain ⟨e2, he, -⟩ := h
      exact absurd he (hm e2)
    · obtain ⟨tp, others, -, he⟩ := h
      exact moveOrResize_no_setCursor cfg self W _ _ obj eff he
  · intro e2 eff heff hc
    obtain ⟨obj, hobj, -, h | h | h | h⟩ :=
      mem_eventFilter cfg self W object (QEvent.MouseButtonDblClick e2) eff heff
    · obtain ⟨e3, he, hmem⟩ := h
      cases he
      subst hobj
      simp only [onMouseButtonDblClick] at hmem
      by_cases hb : e2.button = MouseButton.LeftButton
      · by_cases ht : isInTitlebarArea cfg self W e2.screenPos e2.windowPos (some obj) = true
        · refine ⟨hb, ht, ?_⟩
          simp only [hb, ht, ne_eq, not_true_eq_false, if_false, if_true] at hmem
          generalize W.objects obj = o at hmem
          rcases o with _ | d | d | d | _ <;> simp only [] at hmem
          · simp at hmem
          · split_ifs at hmem
            · simp at hmem
            · simp only [List.mem_cons, List.mem_singleton, List.not_mem_nil, or_false] at hmem
              rcases hmem with h | h
              · subst h; simp [Effect.isSetCursor] at hc
              · exact ⟨obj, Or.inl h⟩
            · simp only [List.mem_cons, List.mem_singleton, List.not_mem_nil, or_false] at hmem
              rcases hmem with h | h
              · subst h; simp [Effect.isSetCursor] at hc
              · exact ⟨obj, Or.inl h⟩
          · split_ifs at hmem
            · simp at hmem
            · simp only [List.mem_cons, List.mem_singleton, List.not_mem_nil, or_false] at hmem
              rcases hmem with h | h
              · subst h; simp [Effect.isSetCursor] at hc
              · exact ⟨obj, Or.inr h⟩
            · simp only [List.mem_cons, List.mem_singleton, List.not_mem_nil, or_false] at hmem
              rcases hmem with h | h
              · subst h; simp [Effect.isSetCursor] at hc
              · exact ⟨obj, Or.inr h⟩
            · simp at hmem
          · simp at hmem
          · simp at hmem
        · simp [hb, ht] at hmem
      · simp [hb] at hmem
    · obtain ⟨e3, he, -⟩ := h; cases he
    · obtain ⟨e3, he, -⟩ := h; cases he
    · obtain ⟨tp, others, he | he, -⟩ := h <;> cases he

/-- C20 as stated fails: a pointer move to the top-left corner of the sample
window while the primary button is held sets the forward-diagonal cursor. -/
theorem pointer_move_button_held :
    (heldMoveAt 4 4).buttons = 1 ∧
    (eventFilter fullBuild sampleHelper sampleWorld (some 1)
      (QEvent.MouseMove (heldMoveAt 4 4))).2 =
      [Effect.windowSetCursor 1 CursorShape.SizeFDiagCursor] ∧
    cursorOf sampleWorld 1 = some (CursorShape.OtherCursor 0) ∧
    cursorOf (eventFilterRun fullBuild sampleHelper sampleWorld (some 1)
      (QEvent.MouseMove (heldMoveAt 4 4))) 1 = some CursorShape.SizeFDiagCursor := by
  decide

/-- The move with the primary button held is handled as the move without. -/
theorem pointer_move_ignores_buttons_witness :
    eventFilter fullBuild sampleHelper sampleWorld (some 1)
        (QEvent.MouseMove
          { heldMoveAt 4 4 with button := MouseButton.NoButton, buttons := 0 }) =
      eventFilter fullBuild sampleHelper sampleWorld (some 1)
        (QEvent.MouseMove (heldMoveAt 4 4)) :=
  (pointer_move_ignores_buttons fullBuild sampleHelper sampleWorld (some 1)
    (heldMoveAt 4 4) MouseButton.NoButton 0).1

/-! ## Configuration defaults -/

/-- C12: after `setIgnoreAreas(w, v)` and `clearIgnoreAreas(w)` on a non-null
window, `getIgnoreAreas(w)` is empty and the ignore-areas test is false at
every point. -/
theorem set_then_clear_ignore_areas (self : FramelessHelper) (w : Nat) (v : List QRect) :
    getIgnoreAreas (clearIgnoreAreas (setIgnoreAreas self (some w) v) (some w)) (some w) = [] ∧
    ∀ p, isInIgnoreAreas (clearIgnoreAreas (setIgnoreAreas self (some w) v) (some w)) p
      (some w) = false := by
  have h : getIgnoreAreas (clearIgnoreAreas (setIgnoreAreas self (some w) v) (some w))
      (some w) = [] := by
    simp only [getIgnoreAreas, clearIgnoreAreas, QHash.value_assign_self]
  refine ⟨h, ?_⟩
  intro p
  simp only [isInIgnoreAreas, h, isInSpecificAreas, List.any_nil]

/-- C13: for every target, every event and every configuration the filter
returns false. -/
theorem eventFilter_returns_false (cfg : BuildConfig) (self : FramelessHelper) (W : World)
    (object : Option Nat) (event : QEvent) :
    (eventFilter cfg self W object event).1 = false := by
  cases object with
  | none => rfl
  | some obj =>
    simp only [eventFilter]
    split_ifs
    · rfl
    · cases event <;> rfl

/-- C14: a point strictly inside all four border bands has no edges and the
arrow cursor. -/
theorem interior_point_arrow (self : FramelessHelper) (point : QPointF) (ww wh : Int)
    (hy1 : point.y > (self.m_borderHeight : ℚ))
    (hy2 : point.y < ((wh - self.m_borderHeight : Int) : ℚ))
    (hx1 : point.x > (self.m_borderWidth : ℚ))
    (hx2 : point.x < ((ww - self.m_borderWidth : Int) : ℚ)) :
    getWindowEdges self point ww wh = 0 ∧
      getCursorShape (getWindowEdges self point ww wh) = CursorShape.ArrowCursor := by
  have h : getWindowEdges self point ww wh = 0 := by
    unfold getWindowEdges
    rw [if_neg (not_le.mpr hy1), if_neg (not_le.mpr hy2), if_neg (not_le.mpr hx1),
      if_neg (not_le.mpr hx2)]
  rw [h]
  exact ⟨rfl, by decide⟩

/-- The centre of the 800x600 sample window has no edges and the arrow. -/
theorem interior_point_arrow_witness :
    getWindowEdges sampleHelper { x := 400, y := 300 } 800 600 = 0 ∧
      getCursorShape (getWindowEdges sampleHelper { x := 400, y := 300 } 800 600) =
        CursorShape.ArrowCursor :=
  interior_point_arrow sampleHelper { x := 400, y := 300 } 800 600
    (by decide) (by decide) (by decide) (by decide)

theorem QHash.value_of_lookup_none {V : Type} (m : QHash V) (k : Nat) (dflt : V)
    (h : m.lookup k = none) : m.value k dflt = dflt := by
  simp [QHash.value, h]

/-- C15: for a non-null window the draggable-areas test is true at every point
when the configured sequence is empty, be it never set, set to the empty
sequence or cleared; when it is non-empty the test is true iff one of the
configured rectangles contains the point (at the coordinates truncated to
`int`, as the code passes them).  The configured sequence is the one stored
under the window's key: the getter returns it, `setDraggableAreas` replaces it
by its argument and `addDraggableArea` appends its argument to it. -/
theorem draggable_areas_test (self : FramelessHelper) (p : QPointF) (w : Nat) :
    (getDraggableAreas self (some w) = [] → isInDraggableAreas self p (some w) = true) ∧
    (self.m_draggableAreas.lookup w = none → isInDraggableAreas self p (some w) = true) ∧
    isInDraggableAreas (setDraggableAreas self (some w) []) p (some w) = true ∧
    isInDraggableAreas (clearDraggableAreas self (some w)) p (some w) = true ∧
    (getDraggableAreas self (some w) ≠ [] →
      (isInDraggableAreas self p (some w) = true ↔
        ∃ r ∈ getDraggableAreas self (some w),
          r.contains (toInt p.x) (toInt p.y) = true)) ∧
    getDraggableAreas self (some w) = self.m_draggableAreas.value w [] ∧
    (self.m_draggableAreas.value w [] ≠ [] →
      (isInDraggableAreas self p (some w) = true ↔
        ∃ r ∈ self.m_draggableAreas.value w [],
          r.contains (toInt p.x) (toInt p.y) = true)) ∧
    (∀ v : List QRect,
      getDraggableAreas (setDraggableAreas self (some w) v) (some w) = v ∧
      (v ≠ [] →
        (isInDraggableAreas (setDraggableAreas self (some w) v) p (some w) = true ↔
          ∃ r ∈ v, r.contains (toInt p.x) (toInt p.y) = true))) ∧
    (∀ area : QRect,
      getDraggableAreas (addDraggableArea self (some w) area) (some w) =
        self.m_draggableAreas.value w [] ++ [area] ∧
      (isInDraggableAreas (addDraggableArea self (some w) area) p (some w) = true ↔
        ∃ r ∈ self.m_draggableAreas.value w [] ++ [area],
          r.contains (toInt p.x) (toInt p.y) = true)) := by
  have hemp : ∀ s : FramelessHelper, getDraggableAreas s (some w) = [] →
      isInDraggableAreas s p (some w) = true := by
    intro s h
    simp [isInDraggableAreas, h]
  have hne : ∀ s : FramelessHelper, getDraggableAreas s (some w) ≠ [] →
      (isInDraggableAreas s p (some w) = true ↔
        ∃ r ∈ getDraggableAreas s (some w),
          r.contains (toInt p.x) (toInt p.y) = true) := by
    intro s hs
    have hfalse : (getDraggableAreas s (some w)).isEmpty = false := by
      cases hl : getDraggableAreas s (some w) with
      | nil => exact absurd hl hs
      | cons a l => rfl
    simp only [isInDraggableAreas, hfalse, Bool.false_eq_true, if_false,
      isInSpecificAreas_eq_true]
  have hset : ∀ v : List QRect,
      getDraggableAreas (setDraggableAreas self (some w) v) (some w) = v := by
    intro v
    simp only [getDraggableAreas, setDraggableAreas, QHash.value_assign_self]
  have hadd : ∀ area : QRect,
      getDraggableAreas (addDraggableArea self (some w) area) (some w) =
        self.m_draggableAreas.value w [] ++ [area] := by
    intro area
    simp only [getDraggableAreas, addDraggableArea, QHash.value_assign_self]
  refine ⟨hemp self, ?_, ?_, ?_, hne self, rfl, ?_, ?_, ?_⟩
  · intro h
    apply hemp
    simp only [getDraggableAreas]
    exact QHash.value_of_lookup_none _ _ _ h
  · apply hemp
    exact hset []
  · apply hemp
    simp only [getDraggableAreas, clearDraggableAreas, QHash.value_assign_self]
  · intro hs
    exact hne self hs
  · intro v
    refine ⟨hset v, ?_⟩
    intro hv
    have h := hne (setDraggableAreas self (some w) v) (by rw [hset v]; exact hv)
    rw [hset v] at h
    exact h
  · intro area
    refine ⟨hadd area, ?_⟩
    have h := hne (addDraggableArea self (some w) area) (by rw [hadd area]; simp)
    rw [hadd area] at h
    exact h

/-- With only `QRect(200, 0, 100, 30)` configured for window 1, the test fails
at `(400, 10)`, which no configured rectangle contains, and holds at
`(250, 10)`, which the rectangle contains. -/
theorem draggable_areas_test_witness :
    getDraggableAreas draggableAreaHelper (some 1) = [QRect.ofXYWH 200 0 100 30] ∧
    isInDraggableAreas draggableAreaHelper { x := 400, y := 10 } (some 1) = false ∧
    isInDraggableAreas draggableAreaHelper { x := 250, y := 10 } (some 1) = true :=
  ⟨((draggable_areas_test sampleHelper { x := 400, y := 10 } 1).2.2.2.2.2.2.2.1
      [QRect.ofXYWH 200 0 100 30]).1,
    by
      have h := ((draggable_areas_test sampleHelper { x := 400, y := 10 } 1).2.2.2.2.2.2.2.1
        [QRect.ofXYWH 200 0 100 30]).2 (by decide)
      cases hb : isInDraggableAreas draggableAreaHelper { x := 400, y := 10 } (some 1)
      · rfl
      · obtain ⟨r, hr, hcont⟩ := h.mp hb
        have hr2 : r = QRect.ofXYWH 200 0 100 30 := by simpa using hr
        subst hr2
        exact absurd hcont (by decide),
    (((draggable_areas_test sampleHelper { x := 250, y := 10 } 1).2.2.2.2.2.2.2.1
      [QRect.ofXYWH 200 0 100 30]).2 (by decide)).mpr
      ⟨QRect.ofXYWH 200 0 100 30, by decide, by decide⟩⟩

/-- C16: for a null window the four sequence getters return the empty sequence
and the two flag getters return true; so they do for a window under whose key
no map has an entry; and every set, add and clear operation called with a null
window returns the helper as it was. -/
theorem defaults_and_null_window (self : FramelessHelper) (W : World) :
    (getIgnoreAreas self none = [] ∧ getDraggableAreas self none = [] ∧
      getIgnoreObjects self W none = [] ∧ getDraggableObjects self W none = [] ∧
      getResizable self none = true ∧ getTitleBarEnabled self none = true) ∧
    (∀ w, isUnconfigured self w = true →
      getIgnoreAreas self (some w) = [] ∧ getDraggableAreas self (some w) = [] ∧
        getIgnoreObjects self W (some w) = [] ∧ getDraggableObjects self W (some w) = [] ∧
        getResizable self (some w) = true ∧ getTitleBarEnabled self (some w) = true) ∧
    (∀ (areas : List QRect) (area : QRect) (objs : List (Option Nat)) (o : Option Nat)
        (flag : Bool),
      setIgnoreAreas self none areas = self ∧ addIgnoreArea self none area = self ∧
        clearIgnoreAreas self none = self ∧
        setDraggableAreas self none areas = self ∧ addDraggableArea self none area = self ∧
        clearDraggableAreas self none = self ∧
        setIgnoreObjects self none objs = self ∧ addIgnoreObject self none o = self ∧
        clearIgnoreObjects self none = self ∧
        setDraggableObjects self none objs = self ∧ addDraggableObject self none o = self ∧
        clearDraggableObjects self none = self ∧
        setResizable self none flag = self ∧ setTitleBarEnabled self none flag = self) := by
  refine ⟨⟨rfl, rfl, rfl, rfl, rfl, rfl⟩, ?_, ?_⟩
  · intro w hw
    simp only [isUnconfigured, Bool.and_eq_true, Option.isNone_iff_eq_none] at hw
    obtain ⟨⟨⟨⟨⟨h1, h2⟩, h3⟩, h4⟩, h5⟩, h6⟩ := hw
    refine ⟨?_, ?_, ?_, ?_, ?_, ?_⟩
    · simp only [getIgnoreAreas]; exact QHash.value_of_lookup_none _ _ _ h1
    · simp only [getDraggableAreas]; exact QHash.value_of_lookup_none _ _ _ h2
    · simp only [getIgnoreObjects, QHash.value_of_lookup_none _ _ _ h3, List.filterMap_nil]
    · simp only [getDraggableObjects, QHash.value_of_lookup_none _ _ _ h4, List.filterMap_nil]
    · simp only [getResizable, QHash.value_of_lookup_none _ _ _ h5, Bool.not_false]
    · simp only [getTitleBarEnabled, QHash.value_of_lookup_none _ _ _ h6, Bool.not_false]
  · intro areas area objs o flag
    exact ⟨rfl, rfl, rfl, rfl, rfl, rfl, rfl, rfl, rfl, rfl, rfl, rfl, rfl, rfl⟩

/-- The getters on window 7, which `ignoreHelper` has no entry for. -/
theorem defaults_and_null_window_witness :
    isUnconfigured ignoreHelper 7 = true ∧
    getIgnoreAreas ignoreHelper (some 7) = [] ∧ getResizable ignoreHelper (some 7) = true :=
  ⟨by decide,
    (((defaults_and_null_window ignoreHelper sampleWorld).2.1 7 (by decide)).1),
    (((defaults_and_null_window ignoreHelper sampleWorld).2.1 7 (by decide)).2.2.2.2.1)⟩

theorem isWindowTopLevel_of_foreign (cfg : BuildConfig) (W : World) (object : Option Nat)
    (h : isForeignTarget W object = true) : isWindowTopLevel cfg W object = false := by
  cases object with
  | none => rfl
  | some id =>
    simp only [isForeignTarget] at h
    simp only [isWindowTopLevel]
    cases hW : W.objects id with
    | none => rfl
    | some o =>
      cases o with
      | Window d => simpa [hW] using h
      | Widget d =>
        have : d.isTopLevel = false := by simpa [hW] using h
        simp [this]
      | QuickItem d => rfl
      | Plain => rfl

/-- C17: when the target is null, is neither a window nor a widget, or is a
window or widget that is not top-level, the filter makes no toolkit call for
any event, returns false, and leaves the object graph as it is (the helper's
configuration is not written by the filter at all). -/
theorem foreign_target_untouched (cfg : BuildConfig) (self : FramelessHelper) (W : World)
    (object : Option Nat) (event : QEvent)
    (h : isForeignTarget W object = true) :
    eventFilter cfg self W object event = (false, []) ∧
      eventFilterRun cfg self W object event = W := by
  have hnt := isWindowTopLevel_of_foreign cfg W object h
  have he : eventFilter cfg self W object event = (false, []) := by
    cases object with
    | none => rfl
    | some obj => simp [eventFilter, hnt]
  exact ⟨he, by simp only [eventFilterRun, he, List.foldl_nil]⟩

/-- A press on the child window of `childWorld` is not acted on. -/
theorem foreign_target_untouched_witness :
    isForeignTarget childWorld (some 1) = true ∧
    eventFilter fullBuild sampleHelper childWorld (some 1)
      (QEvent.MouseButtonPress (leftAt 4 4)) = (false, []) :=
  ⟨by decide,
    (foreign_target_untouched fullBuild sampleHelper childWorld (some 1)
      (QEvent.MouseButtonPress (leftAt 4 4)) (by decide)).1⟩

/-! ## Centering -/

theorem toInt_of_nonneg (q : ℚ) (h : 0 ≤ q) : toInt q = ⌊q⌋ := by
  unfold toInt
  rw [Rat.floor_def]
  exact Int.tdiv_eq_ediv (Rat.num_nonneg.mpr h) (Int.ofNat_nonneg _)

theorem toInt_neg (q : ℚ) : toInt (-q) = -toInt q := by
  unfold toInt
  simp [Int.neg_tdiv]

theorem toInt_of_nonpos (q : ℚ) (h : q ≤ 0) : toInt q = ⌈q⌉ := by
  have h1 := toInt_of_nonneg (-q) (by linarith)
  rw [toInt_neg, Int.floor_neg] at h1
  omega

theorem toInt_intCast (k : Int) : toInt (k : ℚ) = k := by
  simp [toInt]

theorem qRound_half (n : Int) : qRound ((n : ℚ) / 2) = (n + 1) / 2 := by
  unfold qRound
  rcases Int.even_or_odd' n with ⟨m, rfl | rfl⟩
  · have hd : (((2 * m : Int) : ℚ) / 2) = (m : ℚ) := by push_cast; ring
    rw [hd]
    have hr : (2 * m + 1) / 2 = m := by omega
    rw [hr]
    split_ifs with hpos
    · rw [toInt_of_nonneg _ (by linarith)]
      rw [Int.floor_eq_iff]
      constructor <;> linarith
    · have hneg : (m : ℚ) < 0 := lt_of_not_ge hpos
      have h1 : toInt ((m : ℚ) - 1) = m - 1 := by
        have : ((m : ℚ) - 1) = ((m - 1 : Int) : ℚ) := by push_cast; ring
        rw [this, toInt_intCast]
      rw [h1]
      have h2 : toInt ((m : ℚ) - ((m - 1 : Int) : ℚ) + 1 / 2) = 1 := by
        rw [toInt_of_nonneg _ (by push_cast; linarith)]
        rw [Int.floor_eq_iff]
        constructor <;> push_cast <;> linarith
      rw [h2]
      omega
  · have hr : (2 * m + 1 + 1) / 2 = m + 1 := by omega
    rw [hr]
    have hd : (((2 * m + 1 : Int) : ℚ) / 2) = (m : ℚ) + 1 / 2 := by push_cast; ring
    rw [hd]
    split_ifs with hpos
    · rw [toInt_of_nonneg _ (by linarith)]
      rw [Int.floor_eq_iff]
      constructor <;> push_cast <;> linarith
    · have hneg : (m : ℚ) + 1 / 2 < 0 := lt_of_not_ge hpos
      have hm : m ≤ -1 := by
        by_contra hc
        have : (0 : ℚ) ≤ (m : ℚ) := by exact_mod_cast (by omega : (0 : Int) ≤ m)
        linarith
      have hmq : (m : ℚ) ≤ -1 := by exact_mod_cast hm
      have h1 : toInt ((m : ℚ) + 1 / 2 - 1) = m := by
        rw [toInt_of_nonpos _ (by linarith)]
        rw [Int.ceil_eq_iff]
        constructor <;> linarith
      rw [h1]
      have h2 : toInt ((m : ℚ) + 1 / 2 - (m : ℚ) + 1 / 2) = 1 := by
        rw [toInt_of_nonneg _ (by linarith)]
        rw [Int.floor_eq_iff]
        constructor <;> push_cast <;> linarith
      rw [h2]
      omega

theorem centerCoordinate_eq (s w : Int) : centerCoordinate s w = (s - w + 1) / 2 := by
  unfold centerCoordinate
  exact qRound_half (s - w)

theorem centerCoordinate_bound (s w : Int) :
    |2 * centerCoordinate s w - (s - w)| ≤ 1 := by
  rw [centerCoordinate_eq, abs_le]
  constructor <;> omega

theorem center_window_position (cfg : BuildConfig) (W : World) (id : Nat) (d : QWindowData)
    (hW : W.objects id = some (QObject.Window d)) :
    positionOf (moveWindowToDesktopCenter cfg W (some id)).1 id =
        some ((d.screenWidth - d.width + 1) / 2, (d.screenHeight - d.height + 1) / 2) ∧
      extentOf (moveWindowToDesktopCenter cfg W (some id)).1 id = some (d.width, d.height) ∧
      (moveWindowToDesktopCenter cfg W (some id)).2 = [] := by
  simp [moveWindowToDesktopCenter, hW, positionOf, extentOf, World.set, centerCoordinate_eq]

theorem center_plain_object (cfg : BuildConfig) (W : World) (id : Nat)
    (hW : W.objects id = some QObject.Plain) :
    moveWindowToDesktopCenter cfg W (some id) =
      (W, [Effect.qWarning "The given QObject is not a top level window."]) := by
  simp [moveWindowToDesktopCenter, hW]

/-- C18, the code at a failing input: an 800x600 window on a second 1920x1080
screen whose top-left corner is `(1920, 0)` is moved to `(560, 240)` in desktop
coordinates, that is to `(-1360, 240)` measured from the corner of its screen,
where the bound of the claim on `x` does not hold; its size stays 800x600. -/
theorem center_on_second_screen :
    positionOf (moveWindowToDesktopCenter fullBuild secondScreenWorld (some 1)).1 1 =
      some (560, 240) ∧
    screenPositionOf (moveWindowToDesktopCenter fullBuild secondScreenWorld (some 1)).1 1 =
      some (-1360, 240) ∧
    ¬ (|2 * (-1360 : Int) - (1920 - 800)| ≤ 1) ∧
    extentOf (moveWindowToDesktopCenter fullBuild secondScreenWorld (some 1)).1 1 =
      some (800, 600) := by
  refine ⟨?_, ?_, by decide, ?_⟩
  · simp [moveWindowToDesktopCenter, secondScreenWorld, sampleWindow, positionOf, World.set,
      centerCoordinate_eq]
  · simp [moveWindowToDesktopCenter, secondScreenWorld, sampleWindow, screenPositionOf,
      World.set, centerCoordinate_eq]
  · simp [moveWindowToDesktopCenter, secondScreenWorld, sampleWindow, extentOf, World.set]

/-- C19, the code at two failing inputs: the child window of `childWorld`,
which is not top-level, is moved from `(100, 100)` to `(560, 240)` and nothing
is logged; the widget 2 of `widgetWorld`, which is not top-level, is left
where it is and nothing is logged either. -/
theorem center_not_top_level :
    (isForeignTarget childWorld (some 1) = true ∧
      positionOf childWorld 1 = some (100, 100) ∧
      positionOf (moveWindowToDesktopCenter fullBuild childWorld (some 1)).1 1 =
        some (560, 240) ∧
      (moveWindowToDesktopCenter fullBuild childWorld (some 1)).2 = []) ∧
    (isForeignTarget widgetWorld (some 2) = true ∧
      positionOf (moveWindowToDesktopCenter fullBuild widgetWorld (some 2)).1 2 =
        positionOf widgetWorld 2 ∧
      (moveWindowToDesktopCenter fullBuild widgetWorld (some 2)).2 = []) := by
  refine ⟨⟨by decide, by decide, ?_, by decide⟩, by decide, by decide, by decide⟩
  simp [moveWindowToDesktopCenter, childWorld, sampleWindow, positionOf, World.set,
    centerCoordinate_eq]

/-! ## Scalar settings -/

theorem runScalarCalls_nonneg (calls : List ScalarCall) :
    ∀ self : FramelessHelper,
      0 ≤ self.m_borderWidth → 0 ≤ self.m_borderHeight → 0 ≤ self.m_titleBarHeight →
      (∀ c ∈ calls, 0 ≤ scalarCallArg c) →
      0 ≤ (runScalarCalls self calls).m_borderWidth ∧
        0 ≤ (runScalarCalls self calls).m_borderHeight ∧
        0 ≤ (runScalarCalls self calls).m_titleBarHeight := by
  induction calls with
  | nil =>
    intro self h1 h2 h3 _
    exact ⟨h1, h2, h3⟩
  | cons c rest ih =>
    intro self h1 h2 h3 hall
    have hc : 0 ≤ scalarCallArg c := hall c (List.mem_cons_self c rest)
    have hrest : ∀ c2 ∈ rest, 0 ≤ scalarCallArg c2 :=
      fun c2 h => hall c2 (List.mem_cons_of_mem c h)
    simp only [runScalarCalls, List.foldl_cons]
    cases c with
    | setBorderWidth val => exact ih (setBorderWidth self val) hc h2 h3 hrest
    | setBorderHeight val => exact ih (setBorderHeight self val) h1 hc h3 hrest
    | setTitleBarHeight val => exact ih (setTitleBarHeight self val) h1 h2 hc hrest

/-- C21 (as amended): each scalar setter stores its argument as it is and
leaves the other two values alone, so each getter returns the last argument of
its setter whatever its sign; starting from non-negative values, a sequence of
setter calls whose arguments are all non-negative leaves the three getters
non-negative. -/
theorem scalar_settings (self : FramelessHelper) (val : Int) (calls : List ScalarCall) :
    (getBorderWidth (setBorderWidth self val) = val ∧
      getBorderHeight (setBorderWidth self val) = getBorderHeight self ∧
      getTitleBarHeight (setBorderWidth self val) = getTitleBarHeight self) ∧
    (getBorderHeight (setBorderHeight self val) = val ∧
      getBorderWidth (setBorderHeight self val) = getBorderWidth self ∧
      getTitleBarHeight (setBorderHeight self val) = getTitleBarHeight self) ∧
    (getTitleBarHeight (setTitleBarHeight self val) = val ∧
      getBorderWidth (setTitleBarHeight self val) = getBorderWidth self ∧
      getBorderHeight (setTitleBarHeight self val) = getBorderHeight self) ∧
    (0 ≤ getBorderWidth self → 0 ≤ getBorderHeight self → 0 ≤ getTitleBarHeight self →
      (∀ c ∈ calls, 0 ≤ scalarCallArg c) →
      0 ≤ getBorderWidth (runScalarCalls self calls) ∧
        0 ≤ getBorderHeight (runScalarCalls self calls) ∧
        0 ≤ getTitleBarHeight (runScalarCalls self calls)) :=
  ⟨⟨rfl, rfl, rfl⟩, ⟨rfl, rfl, rfl⟩, ⟨rfl, rfl, rfl⟩,
    fun h1 h2 h3 hall => runScalarCalls_nonneg calls self h1 h2 h3 hall⟩

/-- C21 as stated fails: after `setBorderWidth(-5)`, `setBorderHeight(-1)` and
`setTitleBarHeight(-30)` the three getters return these negative values. -/
theorem scalar_settings_negative :
    getBorderWidth (runScalarCalls sampleHelper
      [ScalarCall.setBorderWidth (-5), ScalarCall.setBorderHeight (-1),
        ScalarCall.setTitleBarHeight (-30)]) = -5 ∧
    getBorderHeight (runScalarCalls sampleHelper
      [ScalarCall.setBorderWidth (-5), ScalarCall.setBorderHeight (-1),
        ScalarCall.setTitleBarHeight (-30)]) = -1 ∧
    getTitleBarHeight (runScalarCalls sampleHelper
      [ScalarCall.setBorderWidth (-5), ScalarCall.setBorderHeight (-1),
        ScalarCall.setTitleBarHeight (-30)]) = -30 ∧
    ¬ (0 ≤ getBorderWidth (runScalarCalls sampleHelper
      [ScalarCall.setBorderWidth (-5), ScalarCall.setBorderHeight (-1),
        ScalarCall.setTitleBarHeight (-30)])) := by
  decide

/-- Two setter calls with non-negative arguments on the sample helper. -/
theorem scalar_settings_witness :
    0 ≤ getBorderWidth (runScalarCalls sampleHelper
      [ScalarCall.setBorderWidth 4, ScalarCall.setTitleBarHeight 0]) ∧
    0 ≤ getBorderHeight (runScalarCalls sampleHelper
      [ScalarCall.setBorderWidth 4, ScalarCall.setTitleBarHeight 0]) ∧
    0 ≤ getTitleBarHeight (runScalarCalls sampleHelper
      [ScalarCall.setBorderWidth 4, ScalarCall.setTitleBarHeight 0]) :=
  (scalar_settings sampleHelper 0
    [ScalarCall.setBorderWidth 4, ScalarCall.setTitleBarHeight 0]).2.2.2
    (by decide) (by decide) (by decide) (by decide)

/-! ## Independence of the per-window configuration -/

theorem QHash.lookup_filter_ne {V : Type} (m : QHash V) (k j : Nat) (h : j ≠ k) :
    List.lookup j (m.filter (fun e => e.1 != k)) = List.lookup j m := by
  induction m with
  | nil => rfl
  | cons e rest ih =>
    obtain ⟨ek, ev⟩ := e
    by_cases hek : ek = k
    · subst hek
      have hj : (j == ek) = false := by simpa using h
      simp [List.filter_cons, List.lookup_cons, hj, ih]
    · have hne : (ek != k) = true := by simpa using hek
      simp only [List.filter_cons, hne, if_true, List.lookup_cons, ih]

theorem QHash.value_assign_ne {V : Type} (m : QHash V) (k j : Nat) (v dflt : V)
    (h : j ≠ k) : (m.assign k v).value j dflt = m.value j dflt := by
  have hj : (j == k) = false := by simpa using h
  simp only [QHash.value, QHash.assign, List.lookup_cons, hj]
  rw [QHash.lookup_filter_ne m k j h]

theorem readConfig_other_window (self : FramelessHelper) (W : World) (a : Option Nat)
    (b : Nat) (c : ConfigCall) (kind : ConfigKind) (h : a ≠ some b) :
    readConfig kind (runConfigCall self a c) W (some b) = readConfig kind self W (some b) := by
  cases a with
  | none => cases c <;> rfl
  | some k =>
    have hne : b ≠ k := fun hbk => h (by rw [hbk])
    cases c <;> cases kind <;>
      simp only [readConfig, runConfigCall, setIgnoreAreas, addIgnoreArea, clearIgnoreAreas,
        setDraggableAreas, addDraggableArea, clearDraggableAreas, setIgnoreObjects,
        addIgnoreObject, clearIgnoreObjects, setDraggableObjects, addDraggableObject,
        clearDraggableObjects, setResizable, setTitleBarEnabled, getIgnoreAreas,
        getDraggableAreas, getIgnoreObjects, getDraggableObjects, getResizable,
        getTitleBarEnabled, QHash.value_assign_ne _ _ _ _ _ hne]

theorem readConfig_other_kind (self : FramelessHelper) (W : World) (a : Option Nat)
    (c : ConfigCall) (kind : ConfigKind) (h : kind ≠ configCallKind c) :
    readConfig kind (runConfigCall self a c) W a = readConfig kind self W a := by
  cases a with
  | none => cases c <;> rfl
  | some k =>
    cases c <;> cases kind <;>
      first
        | exact absurd rfl h
        | rfl

/-- C22: for two distinct windows `a` and `b` (null included), every set, add
or clear operation applied to `a` leaves the six getters for `b` as they were,
leaves for `a` the getters of every kind other than the one the operation
names as they were, and leaves `borderWidth`, `borderHeight` and
`titleBarHeight` as they were. -/
theorem configuration_is_keyed (self : FramelessHelper) (W : World) (a b : Option Nat)
    (c : ConfigCall) (hab : a ≠ b) :
    (∀ kind, readConfig kind (runConfigCall self a c) W b = readConfig kind self W b) ∧
    (∀ kind, kind ≠ configCallKind c →
      readConfig kind (runConfigCall self a c) W a = readConfig kind self W a) ∧
    getBorderWidth (runConfigCall self a c) = getBorderWidth self ∧
    getBorderHeight (runConfigCall self a c) = getBorderHeight self ∧
    getTitleBarHeight (runConfigCall self a c) = getTitleBarHeight self := by
  refine ⟨?_, ?_, ?_, ?_, ?_⟩
  · intro kind
    cases b with
    | none => cases kind <;> rfl
    | some k => exact readConfig_other_window self W a k c kind hab
  · intro kind hk
    exact readConfig_other_kind self W a c kind hk
  · cases a <;> cases c <;> rfl
  · cases a <;> cases c <;> rfl
  · cases a <;> cases c <;> rfl

/-- Setting ignore areas for window 1 leaves the ignore areas of window 2. -/
theorem configuration_is_keyed_witness :
    (some 1 : Option Nat) ≠ some 2 ∧
    getIgnoreAreas (setIgnoreAreas ignoreHelper (some 1) []) (some 2) =
      getIgnoreAreas ignoreHelper (some 2) :=
  ⟨by decide, by
    have h := (configuration_is_keyed ignoreHelper sampleWorld (some 1) (some 2)
      (ConfigCall.setIgnoreAreas []) (by decide)).1 ConfigKind.ignoreAreas
    simpa [readConfig, runConfigCall] using h⟩

/-! ## Presses on a border -/

theorem eventFilter_dispatch_sub (cfg : BuildConfig) (self : FramelessHelper) (W : World)
    (object : Option Nat) (event : QEvent) (g p : QPointF)
    (hev : (∃ buttons, event = QEvent.MouseButtonPress
          { button := MouseButton.LeftButton, buttons := buttons, screenPos := g,
            windowPos := p }) ∨
      (∃ others, event = QEvent.TouchBegin { screenPos := g, pos := p } others) ∨
      (∃ others, event = QEvent.TouchUpdate { screenPos := g, pos := p } others)) :
    (eventFilter cfg self W object event).2 = [] ∨
      ∃ obj, object = some obj ∧
        (eventFilter cfg self W object event).2 = moveOrResize cfg self W g p obj := by
  cases object with
  | none => exact Or.inl rfl
  | some obj =>
    by_cases htop : isWindowTopLevel cfg W (some obj) = true
    · refine Or.inr ⟨obj, rfl, ?_⟩
      rcases hev with ⟨buttons, rfl⟩ | ⟨others, rfl⟩ | ⟨others, rfl⟩
      · simp [eventFilter, htop, onMouseButtonPress]
      · simp [eventFilter, htop]
      · simp [eventFilter, htop]
    · refine Or.inl ?_
      simp [eventFilter, htop]

theorem getWindowEdges_top (self : FramelessHelper) (p : QPointF) (ww wh : Int)
    (h : p.y ≤ (self.m_borderHeight : ℚ)) : getWindowEdges self p ww wh ≠ 0 := by
  unfold getWindowEdges
  rw [if_pos h]
  split_ifs <;> decide

theorem maximized_not_normal (s : Nat) (h : s &&& Qt.WindowMaximized ≠ 0) :
    s ≠ Qt.WindowNoState := by
  rintro rfl
  exact h (by decide)

theorem border_press_with_handle (cfg : BuildConfig) (self : FramelessHelper) (W : World)
    (object : Option Nat) (window : QWindowData) (event : QEvent) (g p : QPointF)
    (hwin : (getWindowHandle cfg W object).1 = some window)
    (hev : (∃ buttons, event = QEvent.MouseButtonPress
          { button := MouseButton.LeftButton, buttons := buttons, screenPos := g,
            windowPos := p }) ∨
      (∃ others, event = QEvent.TouchBegin { screenPos := g, pos := p } others) ∨
      (∃ others, event = QEvent.TouchUpdate { screenPos := g, pos := p } others)) :
    (getWindowEdges self p window.width window.height ≠ 0 →
      ∀ eff ∈ (eventFilter cfg self W object event).2, eff.isMove = false) ∧
    (getWindowEdges self p window.width window.height ≠ 0 →
      (window.windowStates ≠ Qt.WindowNoState ∨ getResizable self object = false) →
      (eventFilter cfg self W object event).2 = []) ∧
    (p.y ≤ (self.m_borderHeight : ℚ) → window.windowStates &&& Qt.WindowMaximized ≠ 0 →
      (eventFilter cfg self W object event).2 = []) := by
  have hmain : getWindowEdges self p window.width window.height ≠ 0 →
      (window.windowStates ≠ Qt.WindowNoState ∨ getResizable self object = false) →
      (eventFilter cfg self W object event).2 = [] := by
    intro hE hor
    rcases eventFilter_dispatch_sub cfg self W object event g p hev with h | ⟨obj, hobj, h⟩
    · exact h
    · subst hobj
      rw [h, moveOrResize_eq cfg self W g p obj window hwin, if_neg hE]
      have hcond : (testFlag window.windowStates Qt.WindowNoState &&
          isResizePermitted cfg self W g p (some obj) &&
          getResizable self (some obj)) = false := by
        rcases hor with hs | hr
        · have : testFlag window.windowStates Qt.WindowNoState = false := by
            cases hb : testFlag window.windowStates Qt.WindowNoState
            · rfl
            · exact absurd ((testFlag_noState _).mp hb) hs
          simp [this]
        · simp [hr]
      simp [hcond]
  refine ⟨?_, hmain, ?_⟩
  · intro hE eff heff
    rcases eventFilter_dispatch_sub cfg self W object event g p hev with h | ⟨obj, hobj, h⟩
    · rw [h] at heff
      simp at heff
    · subst hobj
      rw [h, moveOrResize_eq cfg self W g p obj window hwin, if_neg hE] at heff
      split_ifs at heff
      · simp only [List.mem_singleton] at heff
        subst heff
        rfl
      · simp at heff
  · intro hy hmax
    exact hmain (getWindowEdges_top self p _ _ hy) (Or.inl (maximized_not_normal _ hmax))

/-- C23: for a primary-button press, a touch begin or a touch update at the
local point `p` on a target whose window handle is `window`, when the edge set of
`p` is non-empty no system move is started, whether or not `p` is in the
title-bar area; when moreover the window is not in the normal state or the
target is not resizable, no call is made at all.  In particular a press at a
point with `y <= borderHeight` on a maximized window makes no call, whatever
the title-bar height is.  On a target without a valid window handle
neither a move nor a resize is started. -/
theorem border_press_never_moves (cfg : BuildConfig) (self : FramelessHelper) (W : World)
    (object : Option Nat) (event : QEvent) (g p : QPointF)
    (hev : (∃ buttons, event = QEvent.MouseButtonPress
          { button := MouseButton.LeftButton, buttons := buttons, screenPos := g,
            windowPos := p }) ∨
      (∃ others, event = QEvent.TouchBegin { screenPos := g, pos := p } others) ∨
      (∃ others, event = QEvent.TouchUpdate { screenPos := g, pos := p } others)) :
    (∀ window, (getWindowHandle cfg W object).1 = some window →
      getWindowEdges self p window.width window.height ≠ 0 →
      ∀ eff ∈ (eventFilter cfg self W object event).2, eff.isMove = false) ∧
    (∀ window, (getWindowHandle cfg W object).1 = some window →
      getWindowEdges self p window.width window.height ≠ 0 →
      (window.windowStates ≠ Qt.WindowNoState ∨ getResizable self object = false) →
      (eventFilter cfg self W object event).2 = []) ∧
    (∀ window, (getWindowHandle cfg W object).1 = some window →
      p.y ≤ (self.m_borderHeight : ℚ) → window.windowStates &&& Qt.WindowMaximized ≠ 0 →
      (eventFilter cfg self W object event).2 = []) ∧
    ((getWindowHandle cfg W object).1 = none →
      ∀ eff ∈ (eventFilter cfg self W object event).2,
        eff.isMove = false ∧ eff.isResize = false) := by
  refine ⟨?_, ?_, ?_, ?_⟩
  · intro window hwin
    exact (border_press_with_handle cfg self W object window event g p hwin hev).1
  · intro window hwin
    exact (border_press_with_handle cfg self W object window event g p hwin hev).2.1
  · intro window hwin
    exact (border_press_with_handle cfg self W object window event g p hwin hev).2.2
  · intro hnone eff heff
    rcases eventFilter_dispatch_sub cfg self W object event g p hev with h | ⟨obj, hobj, h⟩
    · rw [h] at heff
      simp at heff
    · subst hobj
      rw [h] at heff
      exact moveOrResize_none cfg self W g p obj hnone eff heff

/-- A press on the top border of the maximized sample window, inside the
title-bar strip, makes no call. -/
theorem border_press_never_moves_witness :
    (getWindowHandle fullBuild maximizedWorld (some 1)).1 =
      some { sampleWindow with windowStates := Qt.WindowMaximized } ∧
    isInTitlebarArea fullBuild sampleHelper maximizedWorld (leftAt 400 4).screenPos
      (leftAt 400 4).windowPos (some 1) = true ∧
    (eventFilter fullBuild sampleHelper maximizedWorld (some 1)
      (QEvent.MouseButtonPress (leftAt 400 4))).2 = [] :=
  ⟨by decide, by decide,
    (border_press_never_moves fullBuild sampleHelper maximizedWorld (some 1)
      (QEvent.MouseButtonPress (leftAt 400 4)) (leftAt 400 4).screenPos
      (leftAt 400 4).windowPos (Or.inl ⟨1, rfl⟩)).2.2.1
      { sampleWindow with windowStates := Qt.WindowMaximized }
      (by decide) (by decide) (by decide)⟩
